import Mathlib

/-!
Console host: `ScreenInfoUiaProvider`.

A shallow embedding of `src/host/screenInfoUiaProvider.cpp`.

* Machine integers are mathematical integers together with the explicit
  conversions the C++ performs (`SHORT`, `LONG`/`int`, `ULONG`, `size_t`).
* A method of the provider is a function from the provider's state (and the
  outcomes of the platform calls it makes) to its results and the new state.
* The platform calls that can fail (`SafeArrayCreateVector`,
  `SafeArrayPutElement`, `SysAllocString`) take their outcome from an
  environment, so a theorem quantified over the environment covers every
  outcome.
-/

namespace ConHost

/-! ## Machine integers -/

/-- A 16-bit signed `SHORT`. -/
abbrev SHORT : Type := { x : Int // -32768 ≤ x ∧ x ≤ 32767 }

/-- A 32-bit signed `LONG` (also `long` and `int` on this platform). -/
abbrev LONG : Type := { x : Int // -2147483648 ≤ x ∧ x ≤ 2147483647 }

/-- Conversion of an integer value to the 32-bit unsigned `ULONG`. -/
def toULONG (x : Int) : Nat := (x % 4294967296).toNat

/-- Conversion of an integer value to the 32-bit two's complement `LONG`: the
residue modulo 2^32, read as negative from 2^31 on. -/
def toLONG (x : Int) : Int :=
  if x % 4294967296 < 2147483648 then x % 4294967296 else x % 4294967296 - 4294967296

/-- Conversion of an integer value to the 64-bit unsigned `size_t`. -/
def toSizeT (x : Int) : Nat := (x % 18446744073709551616).toNat

/-- `InterlockedIncrement` on a 32-bit counter: one atomic step, returns the new value. -/
def InterlockedIncrement (c : Nat) : Nat := (c + 1) % 4294967296

/-- `InterlockedDecrement` on a 32-bit counter: one atomic step, returns the new
value, which is `c - 1` modulo 2^32 (zero wraps to 2^32 - 1). -/
def InterlockedDecrement (c : Nat) : Nat :=
  (if c = 0 then 4294967295 else c - 1) % 4294967296

/-! ## Result codes and platform constants -/

/-- An `HRESULT` is a signed 32-bit value. -/
abbrev HRESULT : Type := Int

def S_OK : HRESULT := 0
/-- The value 0x80004002. -/
def E_NOINTERFACE : HRESULT := -2147467262
/-- The value 0x80004001. -/
def E_NOTIMPL : HRESULT := -2147467263
/-- The value 0x8007000E. -/
def E_OUTOFMEMORY : HRESULT := -2147024882
/-- The value 0x80040201. -/
def UIA_E_ELEMENTNOTAVAILABLE : HRESULT := -2147220991
/-- The value 0x8002000B, returned by `SafeArrayPutElement` for an index out of bounds. -/
def DISP_E_BADINDEX : HRESULT := -2147352565

/-- The `FAILED` test of an `HRESULT`: the sign bit is set. -/
def FAILED (hr : HRESULT) : Bool := decide (hr < 0)

abbrev VARTYPE : Type := Nat
def VT_EMPTY : VARTYPE := 0
def VT_I4 : VARTYPE := 3
def VT_BSTR : VARTYPE := 8
def VT_BOOL : VARTYPE := 11
def VT_UNKNOWN : VARTYPE := 13

/-- A `VARIANT_BOOL` is a 16-bit signed value. -/
abbrev VARIANT_BOOL : Type := Int
def VARIANT_TRUE : VARIANT_BOOL := -1
def VARIANT_FALSE : VARIANT_BOOL := 0

abbrev PROPERTYID : Type := Int
def UIA_ControlTypePropertyId : PROPERTYID := 30003
def UIA_NamePropertyId : PROPERTYID := 30005
def UIA_HasKeyboardFocusPropertyId : PROPERTYID := 30008
def UIA_IsKeyboardFocusablePropertyId : PROPERTYID := 30009
def UIA_AutomationIdPropertyId : PROPERTYID := 30011
def UIA_IsControlElementPropertyId : PROPERTYID := 30016
def UIA_IsContentElementPropertyId : PROPERTYID := 30017
def UIA_ProviderDescriptionPropertyId : PROPERTYID := 30107

def UIA_DocumentControlTypeId : Int := 50030
def UiaAppendRuntimeId : Int := 3

/-- An interface identifier: the 128 bits of a GUID. -/
abbrev IID : Type := Nat
/-- The GUID 00000000-0000-0000-C000-000000000046. -/
def IID_IUnknown : IID := 0x0000000000000000C000000000000046
/-- The GUID d6dd68d1-86fd-4332-8666-9abedea2d24c. -/
def IID_IRawElementProviderSimple : IID := 0xd6dd68d186fd433286669abedea2d24c
/-- The GUID f7063da8-8359-439c-9297-bbc5299a7d87. -/
def IID_IRawElementProviderFragment : IID := 0xf7063da88359439c9297bbc5299a7d87
/-- The GUID 3589c92c-63f3-4367-99bb-ada653b77cf2. -/
def IID_ITextProvider : IID := 0x3589c92c63f3436799bbada653b77cf2

/-- The granularity of a text range (`TextUnit`). -/
inductive TextUnit where
  | TextUnit_Character
  | TextUnit_Format
  | TextUnit_Word
  | TextUnit_Line
  | TextUnit_Paragraph
  | TextUnit_Page
  | TextUnit_Document
  deriving DecidableEq, Repr

/-! ## Collaborators -/

/-- A `COORD`: two `SHORT`s. -/
structure COORD where
  X : SHORT
  Y : SHORT
  deriving DecidableEq

/-- A `SMALL_RECT`: four `SHORT`s. -/
structure SMALL_RECT where
  Left : SHORT
  Top : SHORT
  Right : SHORT
  Bottom : SHORT
  deriving DecidableEq

/-- A `RECT`: four `LONG`s. -/
structure RECT where
  left : LONG
  top : LONG
  right : LONG
  bottom : LONG
  deriving DecidableEq

/-- A `UiaRect`: four `double`s. Every value stored here is an integer of
magnitude below 2^32, which a `double` holds exactly, so the fields are
integers. -/
structure UiaRect where
  left : Int
  top : Int
  width : Int
  height : Int
  deriving DecidableEq

/-- The window the provider points back to; `GetWindowRect` reads its rectangle. -/
structure Window where
  GetWindowRect : RECT
  deriving DecidableEq

/-- The current font; `GetUnscaledSize` reads its cell size. -/
structure FontInfo where
  GetUnscaledSize : COORD
  deriving DecidableEq

/-- The text buffer; `GetCurrentFont` reads its font. -/
structure TEXT_BUFFER_INFO where
  GetCurrentFont : FontInfo
  deriving DecidableEq

/-- The screen buffer; `GetBufferViewport` reads its viewport. -/
structure SCREEN_INFORMATION where
  GetBufferViewport : SMALL_RECT
  TextInfo : TEXT_BUFFER_INFO
  deriving DecidableEq

/-! ## The provider and its reference count -/

/-- The three interfaces of the provider that a caller can hold. -/
inductive Facet where
  | IRawElementProviderSimple
  | IRawElementProviderFragment
  | ITextProvider
  deriving DecidableEq, Repr

/-- The state of a `ScreenInfoUiaProvider`. `_cRefs` is the 32-bit counter;
`deleted` counts how many times `delete this` has run. -/
structure ScreenInfoUiaProvider where
  _pWindow : Option Window
  _pScreenInfo : SCREEN_INFORMATION
  _cRefs : Nat
  deleted : Nat
  deriving DecidableEq

/-- The constructor: stores both back-references and starts the count at 1. -/
def ScreenInfoUiaProvider.construct (pParent : Option Window)
    (pScreenInfo : SCREEN_INFORMATION) : ScreenInfoUiaProvider :=
  { _pWindow := pParent, _pScreenInfo := pScreenInfo, _cRefs := 1, deleted := 0 }

/-- The method `AddRef`: the new state and the returned `ULONG`. -/
def ScreenInfoUiaProvider.AddRef (this : ScreenInfoUiaProvider) :
    ScreenInfoUiaProvider × Nat :=
  let v := InterlockedIncrement this._cRefs
  ({ this with _cRefs := v }, v)

/-- The method `Release`: the new state and the returned `ULONG`. The decremented
value is held in a `long`, compared with zero, and returned. -/
def ScreenInfoUiaProvider.Release (this : ScreenInfoUiaProvider) :
    ScreenInfoUiaProvider × Nat :=
  let val : Int := toLONG (InterlockedDecrement this._cRefs)
  let this1 := { this with _cRefs := InterlockedDecrement this._cRefs }
  if val = 0 then
    ({ this1 with deleted := this1.deleted + 1 }, toULONG val)
  else
    (this1, toULONG val)

/-- The method `QueryInterface`: the result code, the interface written to
`*ppInterface` (`none` is the null pointer) and the new state. -/
def ScreenInfoUiaProvider.QueryInterface (this : ScreenInfoUiaProvider) (riid : IID) :
    HRESULT × Option Facet × ScreenInfoUiaProvider :=
  if riid = IID_IUnknown then
    (S_OK, some Facet.IRawElementProviderSimple, this.AddRef.1)
  else if riid = IID_IRawElementProviderSimple then
    (S_OK, some Facet.IRawElementProviderSimple, this.AddRef.1)
  else if riid = IID_IRawElementProviderFragment then
    (S_OK, some Facet.IRawElementProviderFragment, this.AddRef.1)
  else if riid = IID_ITextProvider then
    (S_OK, some Facet.ITextProvider, this.AddRef.1)
  else
    (E_NOINTERFACE, none, this)

/-- One call on the counter. -/
inductive RefOp where
  | addRef
  | release
  deriving DecidableEq, Repr

/-- One step of an interleaving: the call runs atomically on the counter. -/
def refStep (p : ScreenInfoUiaProvider) : RefOp → ScreenInfoUiaProvider × Nat
  | RefOp.addRef => p.AddRef
  | RefOp.release => p.Release

/-- What one step of an interleaving did. -/
structure StepRecord where
  op : RefOp
  before : Nat
  returned : Nat
  destroyed : Bool
  deriving DecidableEq, Repr

/-- The record of one step taken from state `p`. -/
def stepRecord (p : ScreenInfoUiaProvider) (op : RefOp) : StepRecord :=
  { op := op, before := p._cRefs, returned := (refStep p op).2,
    destroyed := decide ((refStep p op).1.deleted ≠ p.deleted) }

/-- The state after a sequence of steps. -/
def runOps (p : ScreenInfoUiaProvider) : List RefOp → ScreenInfoUiaProvider
  | [] => p
  | op :: rest => runOps (refStep p op).1 rest

/-- The records of a sequence of steps, in order. -/
def traceOps (p : ScreenInfoUiaProvider) : List RefOp → List StepRecord
  | [] => []
  | op :: rest => stepRecord p op :: traceOps (refStep p op).1 rest

/-- The count is positive before each step of the sequence. -/
def PositiveBefore (p : ScreenInfoUiaProvider) : List RefOp → Prop
  | [] => True
  | op :: rest => 0 < p._cRefs ∧ PositiveBefore (refStep p op).1 rest

/-- The counter has room for every `AddRef` of the sequence: it is below
2^32 - 1 before each of them. -/
def NoWrapBefore (p : ScreenInfoUiaProvider) : List RefOp → Prop
  | [] => True
  | op :: rest =>
    (op = RefOp.addRef → p._cRefs < 4294967295) ∧ NoWrapBefore (refStep p op).1 rest

/-! ## Platform calls -/

/-- The outcomes of the platform calls a method makes.
* `createOk`: whether `SafeArrayCreateVector` returns a vector (or null);
* `putElement index`: the result of `SafeArrayPutElement` at an index inside
  the bounds of the vector;
* `allocString`: whether `SysAllocString` returns a copy (or null);
* `rangeRefs`: the own reference count a newly built `UiaTextRange` starts with. -/
structure Env where
  createOk : Bool
  putElement : Int → HRESULT
  allocString : Bool
  rangeRefs : Nat

/-- A one-dimensional `SAFEARRAY`. -/
structure SAFEARRAY (α : Type) where
  vt : VARTYPE
  lLbound : Int
  elems : List α
  deriving DecidableEq

/-- The platform calls on vectors that a method made, in order. -/
inductive ApiCall where
  | SafeArrayCreateVector (vt : VARTYPE) (lLbound : Int) (cElements : Nat)
  | SafeArrayPutElement (index : Int) (hr : HRESULT)
  | SafeArrayDestroy
  deriving DecidableEq

/-- The call `SafeArrayCreateVector`: null, or a vector of `cElements` cleared elements. -/
def SafeArrayCreateVector {α : Type} (env : Env) (vt : VARTYPE) (lLbound : Int)
    (cElements : Nat) (cleared : α) : Option (SAFEARRAY α) :=
  if env.createOk then
    some { vt := vt, lLbound := lLbound, elems := List.replicate cElements cleared }
  else
    none

/-- The call `SafeArrayPutElement`: an index outside the bounds is refused, a
failure leaves the vector as it was, a success stores the element. -/
def SafeArrayPutElement {α : Type} (env : Env) (psa : SAFEARRAY α) (index : Int) (v : α) :
    HRESULT × SAFEARRAY α :=
  if index < psa.lLbound ∨ psa.lLbound + psa.elems.length ≤ index then
    (DISP_E_BADINDEX, psa)
  else if FAILED (env.putElement index) then
    (env.putElement index, psa)
  else
    (env.putElement index,
      { psa with elems := psa.elems.set (index - psa.lLbound).toNat v })

/-- The call `SysAllocString`: null, or a fresh copy of the string. -/
def SysAllocString (env : Env) (s : String) : Option String :=
  if env.allocString then some s else none

/-! ## `BuildIntSafeArray` -/

/-- The loop of `BuildIntSafeArray` with `remaining` iterations to go from index
`i`: the final value of `psa` and the calls made. The counter `i` is a `long`
that stays below `length`, so `i++` cannot overflow. -/
def BuildIntSafeArray.loop (env : Env) (data : List Int) :
    Nat → Int → SAFEARRAY Int → Option (SAFEARRAY Int) × List ApiCall
  | 0, _, psa => (some psa, [])
  | remaining + 1, i, psa =>
    let r := SafeArrayPutElement env psa i (data.getD i.toNat 0)
    if FAILED r.1 then
      (none, [ApiCall.SafeArrayPutElement i r.1, ApiCall.SafeArrayDestroy])
    else
      let rest := BuildIntSafeArray.loop env data remaining (i + 1) r.2
      (rest.1, ApiCall.SafeArrayPutElement i r.1 :: rest.2)

/-- The helper `BuildIntSafeArray`: the returned pointer (`none` is null) and the
calls made. `length` is an `int`; it is converted to the `ULONG` element count. -/
def BuildIntSafeArray (env : Env) (data : List Int) (length : LONG) :
    Option (SAFEARRAY Int) × List ApiCall :=
  match SafeArrayCreateVector env VT_I4 0 (toULONG length.1) (0 : Int) with
  | none => (none, [ApiCall.SafeArrayCreateVector VT_I4 0 (toULONG length.1)])
  | some psa =>
    let r := BuildIntSafeArray.loop env data length.1.toNat 0 psa
    (r.1, ApiCall.SafeArrayCreateVector VT_I4 0 (toULONG length.1) :: r.2)

/-! ## The fragment methods -/

/-- The method `GetRuntimeId`: the result code, the vector written to
`*ppRuntimeId` and the new state. `RETURN_IF_NULL_ALLOC` returns
`E_OUTOFMEMORY` when its argument is null. -/
def ScreenInfoUiaProvider.GetRuntimeId (this : ScreenInfoUiaProvider) (env : Env) :
    HRESULT × Option (SAFEARRAY Int) × ScreenInfoUiaProvider :=
  let rId : List Int := [UiaAppendRuntimeId, -1]
  match (BuildIntSafeArray env rId ⟨2, by decide⟩).1 with
  | none => (E_OUTOFMEMORY, none, this)
  | some psa => (S_OK, some psa, this)

/-- The method `get_BoundingRectangle`: the result code, the content of `*pRect`
after the call and the new state. `RETURN_HR_IF_NULL` returns its first
argument when its second is null. The two differences are `LONG` subtractions
(two's complement), then converted to `double`. -/
def ScreenInfoUiaProvider.get_BoundingRectangle (this : ScreenInfoUiaProvider)
    (pRect : UiaRect) : HRESULT × UiaRect × ScreenInfoUiaProvider :=
  match this._pWindow with
  | none => (UIA_E_ELEMENTNOTAVAILABLE, pRect, this)
  | some w =>
    let rc := w.GetWindowRect
    (S_OK,
      { left := rc.left.1, top := rc.top.1,
        width := toLONG (rc.right.1 - rc.left.1),
        height := toLONG (rc.bottom.1 - rc.top.1) },
      this)

/-! ## `GetPropertyValue` -/

/-- The union inside a `VARIANT`. Its members share one storage, so it holds one
member at a time and a store to a member replaces whatever it held. `other`
stands for any content this file never writes. -/
inductive VariantUnion where
  | lVal (v : Int)
  | bstrVal (p : Option String)
  | boolVal (b : VARIANT_BOOL)
  | other (bits : Nat)
  deriving DecidableEq

/-- A `VARIANT`: its type tag and its union. -/
structure VARIANT where
  vt : VARTYPE
  u : VariantUnion
  deriving DecidableEq

/-- The method `GetPropertyValue`: the result code, the content of `*pVariant`
after the call and the new state. Each store to `lVal`, `bstrVal` or `boolVal`
is a store to the union. -/
def ScreenInfoUiaProvider.GetPropertyValue (this : ScreenInfoUiaProvider) (env : Env)
    (propertyId : PROPERTYID) (pVariant : VARIANT) :
    HRESULT × VARIANT × ScreenInfoUiaProvider :=
  let v0 : VARIANT := ⟨VT_EMPTY, pVariant.u⟩
  if propertyId = UIA_ControlTypePropertyId then
    (S_OK, ⟨VT_I4, VariantUnion.lVal UIA_DocumentControlTypeId⟩, this)
  else if propertyId = UIA_NamePropertyId then
    let bstrVal := SysAllocString env "Text Area"
    let v1 : VARIANT := ⟨v0.vt, VariantUnion.bstrVal bstrVal⟩
    if bstrVal ≠ none then (S_OK, ⟨VT_BSTR, v1.u⟩, this) else (S_OK, v1, this)
  else if propertyId = UIA_AutomationIdPropertyId then
    let bstrVal := SysAllocString env "Text Area"
    let v1 : VARIANT := ⟨v0.vt, VariantUnion.bstrVal bstrVal⟩
    if bstrVal ≠ none then (S_OK, ⟨VT_BSTR, v1.u⟩, this) else (S_OK, v1, this)
  else if propertyId = UIA_IsControlElementPropertyId then
    (S_OK, ⟨VT_BOOL, VariantUnion.boolVal VARIANT_TRUE⟩, this)
  else if propertyId = UIA_IsContentElementPropertyId then
    (S_OK, ⟨VT_BOOL, VariantUnion.boolVal VARIANT_TRUE⟩, this)
  else if propertyId = UIA_IsKeyboardFocusablePropertyId then
    (S_OK, ⟨VT_BOOL, VariantUnion.boolVal VARIANT_FALSE⟩, this)
  else if propertyId = UIA_HasKeyboardFocusPropertyId then
    (S_OK, ⟨VT_BOOL, VariantUnion.boolVal VARIANT_FALSE⟩, this)
  else if propertyId = UIA_ProviderDescriptionPropertyId then
    let bstrVal := SysAllocString env "Microsoft Console Host: Screen Information Text Area"
    let v1 : VARIANT := ⟨v0.vt, VariantUnion.bstrVal bstrVal⟩
    if bstrVal ≠ none then (S_OK, ⟨VT_BSTR, v1.u⟩, this) else (S_OK, v1, this)
  else
    (S_OK, v0, this)

/-- What a caller reads from a `VARIANT`: the tag and the member the tag selects. -/
inductive VariantValue where
  | empty
  | i4 (lVal : Int)
  | bstr (bstrVal : Option String)
  | bool (boolVal : VARIANT_BOOL)
  | other (vt : VARTYPE)
  deriving DecidableEq

/-- The reading of a `VARIANT` by its tag: the member the tag selects, when that
is the member the union holds; any other combination is `other`. -/
def VARIANT.value (v : VARIANT) : VariantValue :=
  if v.vt = VT_EMPTY then VariantValue.empty
  else
    match v.u with
    | VariantUnion.lVal x => if v.vt = VT_I4 then VariantValue.i4 x else VariantValue.other v.vt
    | VariantUnion.bstrVal p =>
      if v.vt = VT_BSTR then VariantValue.bstr p else VariantValue.other v.vt
    | VariantUnion.boolVal b =>
      if v.vt = VT_BOOL then VariantValue.bool b else VariantValue.other v.vt
    | VariantUnion.other _ => VariantValue.other v.vt

/-! ## `GetVisibleRanges` -/

/-- Modelled from the spec: the class `UiaTextRange`, whose header and source are
not among the sources. A text range keeps the arguments it was built with (the
buffer, the granularity unit, the font cell size, the absolute row, the
enumeration index and the viewport) and its own reference count; the caller
increments the provider's count on its behalf, and the range releases that
reference when its own count reaches zero. The row and the index are the
`size_t` values of the argument expressions. -/
structure UiaTextRange where
  pOutputBuffer : TEXT_BUFFER_INFO
  textUnit : TextUnit
  currentFontSize : COORD
  row : Nat
  index : Nat
  viewport : SMALL_RECT
  ownRefs : Nat
  deriving DecidableEq

/-- Modelled from the spec: `Release` on a text range, seen from the provider it
points back to. When the range's own count reaches zero the range is destroyed
and its destruction releases the provider once. -/
def UiaTextRange.releaseOwner (range : UiaTextRange) (owner : ScreenInfoUiaProvider) :
    ScreenInfoUiaProvider :=
  if InterlockedDecrement range.ownRefs = 0 then owner.Release.1 else owner

/-- The call `SafeArrayPutElement` on a vector of `VT_UNKNOWN`: the vector takes
its own reference to the object it stores. -/
def SafeArrayPutElementUnknown (env : Env) (psa : SAFEARRAY (Option UiaTextRange))
    (index : Int) (range : UiaTextRange) : HRESULT × SAFEARRAY (Option UiaTextRange) :=
  SafeArrayPutElement env psa index
    (some { range with ownRefs := InterlockedIncrement range.ownRefs })

/-- The call `SafeArrayDestroy` on a vector of `VT_UNKNOWN`, seen from the
provider: every stored object is released once, in order. -/
def SafeArrayDestroyUnknown (psa : SAFEARRAY (Option UiaTextRange))
    (owner : ScreenInfoUiaProvider) : ScreenInfoUiaProvider :=
  psa.elems.foldl
    (fun o e => match e with
      | none => o
      | some range => range.releaseOwner o)
    owner

/-- The results of `GetVisibleRanges`: the result code, the vector written to
`*ppRetVal` (`none` is null), the new state and the calls made on the vector. -/
structure VisibleRanges where
  hr : HRESULT
  ppRetVal : Option (SAFEARRAY (Option UiaTextRange))
  provider : ScreenInfoUiaProvider
  calls : List ApiCall

/-- The loop of `GetVisibleRanges` with `remaining` iterations to go from index
`i` (a `size_t` below `rowCount`, so `++i` cannot wrap). The fifth argument of
the range is the `size_t` sum `viewport.Top + i`. -/
def ScreenInfoUiaProvider.GetVisibleRanges.loop (env : Env) (outputBuffer : TEXT_BUFFER_INFO)
    (currentFontSize : COORD) (viewport : SMALL_RECT) :
    Nat → Nat → SAFEARRAY (Option UiaTextRange) → ScreenInfoUiaProvider → VisibleRanges
  | 0, _, psa, this => { hr := S_OK, ppRetVal := some psa, provider := this, calls := [] }
  | remaining + 1, i, psa, this =>
    let range : UiaTextRange :=
      { pOutputBuffer := outputBuffer, textUnit := TextUnit.TextUnit_Line,
        currentFontSize := currentFontSize,
        row := (toSizeT viewport.Top.1 + i) % 18446744073709551616,
        index := i, viewport := viewport, ownRefs := env.rangeRefs }
    let this1 := this.AddRef.1
    let currentIndex : Int := toLONG i
    let r := SafeArrayPutElementUnknown env psa currentIndex range
    if FAILED r.1 then
      { hr := r.1, ppRetVal := none, provider := SafeArrayDestroyUnknown r.2 this1,
        calls := [ApiCall.SafeArrayPutElement currentIndex r.1, ApiCall.SafeArrayDestroy] }
    else
      let rest := ScreenInfoUiaProvider.GetVisibleRanges.loop env outputBuffer
        currentFontSize viewport remaining (i + 1) r.2 this1
      { rest with calls := ApiCall.SafeArrayPutElement currentIndex r.1 :: rest.calls }

/-- The row count of `GetVisibleRanges`: the `int` value `Bottom - Top + 1`
converted to `size_t`. -/
def rowCount (viewport : SMALL_RECT) : Nat :=
  toSizeT (viewport.Bottom.1 - viewport.Top.1 + 1)

/-- The method `GetVisibleRanges`. The element count of the vector is the row
count converted to `ULONG`. The local `charWidth` is computed and never used,
so it is left out; `new UiaTextRange` is taken to return an object. -/
def ScreenInfoUiaProvider.GetVisibleRanges (this : ScreenInfoUiaProvider) (env : Env) :
    VisibleRanges :=
  let viewport := this._pScreenInfo.GetBufferViewport
  let outputBuffer := this._pScreenInfo.TextInfo
  let currentFont := outputBuffer.GetCurrentFont
  let currentFontSize := currentFont.GetUnscaledSize
  let create := ApiCall.SafeArrayCreateVector VT_UNKNOWN 0 (toULONG (rowCount viewport))
  match SafeArrayCreateVector env VT_UNKNOWN 0 (toULONG (rowCount viewport))
      (none : Option UiaTextRange) with
  | none => { hr := E_OUTOFMEMORY, ppRetVal := none, provider := this, calls := [create] }
  | some psa =>
    let r := ScreenInfoUiaProvider.GetVisibleRanges.loop env outputBuffer currentFontSize
      viewport (rowCount viewport) 0 psa this
    { r with calls := create :: r.calls }

/-! ## Deciding the premises on the steps of a run -/

/-- The positivity premise can be checked by running the steps. -/
def PositiveBefore.dec : (p : ScreenInfoUiaProvider) → (ops : List RefOp) →
    Decidable (PositiveBefore p ops)
  | _, [] => isTrue trivial
  | p, op :: rest =>
    match Nat.decLt 0 p._cRefs, PositiveBefore.dec (refStep p op).1 rest with
    | isTrue h1, isTrue h2 => isTrue ⟨h1, h2⟩
    | isFalse h1, _ => isFalse (fun h => h1 h.1)
    | _, isFalse h2 => isFalse (fun h => h2 h.2)

instance (p : ScreenInfoUiaProvider) (ops : List RefOp) : Decidable (PositiveBefore p ops) :=
  PositiveBefore.dec p ops

/-- The room premise can be checked by running the steps. -/
def NoWrapBefore.dec : (p : ScreenInfoUiaProvider) → (ops : List RefOp) →
    Decidable (NoWrapBefore p ops)
  | _, [] => isTrue trivial
  | p, op :: rest =>
    match (inferInstance : Decidable (op = RefOp.addRef → p._cRefs < 4294967295)),
        NoWrapBefore.dec (refStep p op).1 rest with
    | isTrue h1, isTrue h2 => isTrue ⟨h1, h2⟩
    | isFalse h1, _ => isFalse (fun h => h1 h.1)
    | _, isFalse h2 => isFalse (fun h => h2 h.2)

instance (p : ScreenInfoUiaProvider) (ops : List RefOp) : Decidable (NoWrapBefore p ops) :=
  NoWrapBefore.dec p ops

/-! ## Sample values -/

/-- A viewport over rows 5 to 8 and columns 0 to 79. -/
def sampleViewport : SMALL_RECT :=
  { Left := ⟨0, by decide⟩, Top := ⟨5, by decide⟩,
    Right := ⟨79, by decide⟩, Bottom := ⟨8, by decide⟩ }

/-- A screen buffer showing `sampleViewport` with an 8 by 16 font cell. -/
def sampleScreen : SCREEN_INFORMATION :=
  { GetBufferViewport := sampleViewport,
    TextInfo := { GetCurrentFont := { GetUnscaledSize := { X := ⟨8, by decide⟩, Y := ⟨16, by decide⟩ } } } }

/-- A freshly constructed provider with no window. -/
def sampleProvider : ScreenInfoUiaProvider :=
  ScreenInfoUiaProvider.construct none sampleScreen

/-- The calls of the loop of `BuildIntSafeArray` on the indices `k, ..., k + n - 1`. -/
def putCalls (env : Env) (k n : Nat) : List ApiCall :=
  (List.range' k n).map
    (fun (j : Nat) => ApiCall.SafeArrayPutElement (j : Int) (env.putElement (j : Int)))

/-- An environment in which `SafeArrayCreateVector` returns null. -/
def envNoVector : Env :=
  { createOk := false, putElement := fun _ => S_OK, allocString := true, rangeRefs := 1 }

/-- An environment in which `SafeArrayPutElement` fails with `E_OUTOFMEMORY` at
index `k` and succeeds elsewhere. -/
def envPutFails (k : Int) : Env :=
  { createOk := true, putElement := fun i => if i = k then E_OUTOFMEMORY else S_OK,
    allocString := true, rangeRefs := 1 }

/-- A window whose rectangle spans the whole `LONG` range horizontally. -/
def wideWindow : Window :=
  { GetWindowRect :=
      { left := ⟨-2147483648, by decide⟩, top := ⟨0, by decide⟩,
        right := ⟨2147483647, by decide⟩, bottom := ⟨0, by decide⟩ } }

/-- A window at (10, 20) that is 630 wide and 460 high. -/
def sampleWindow : Window :=
  { GetWindowRect :=
      { left := ⟨10, by decide⟩, top := ⟨20, by decide⟩,
        right := ⟨640, by decide⟩, bottom := ⟨480, by decide⟩ } }

/-- An environment in which every platform call succeeds. -/
def envOk : Env :=
  { createOk := true, putElement := fun _ => S_OK, allocString := true, rangeRefs := 1 }

/-- An environment in which `SysAllocString` returns null. -/
def envNoString : Env :=
  { createOk := true, putElement := fun _ => S_OK, allocString := false, rangeRefs := 1 }

/-- A variant holding leftovers of an earlier use. -/
def staleVariant : VARIANT :=
  { vt := VT_I4, u := VariantUnion.lVal 7 }

/-- The number of `SafeArrayPutElement` calls in a list of calls: the number of
iterations the loop ran. -/
def putCount (calls : List ApiCall) : Nat :=
  calls.countP (fun c =>
    match c with
    | ApiCall.SafeArrayPutElement _ _ => true
    | _ => false)

/-- The range that `GetVisibleRanges` stores at index `i`: built with the buffer,
the line unit, the font size, the `size_t` row `Top + i`, the index `i` and the
viewport, and holding the reference the vector took on it. -/
def storedRange (env : Env) (outputBuffer : TEXT_BUFFER_INFO) (currentFontSize : COORD)
    (viewport : SMALL_RECT) (i : Nat) : UiaTextRange :=
  { pOutputBuffer := outputBuffer, textUnit := TextUnit.TextUnit_Line,
    currentFontSize := currentFontSize,
    row := (toSizeT viewport.Top.1 + i) % 18446744073709551616,
    index := i, viewport := viewport, ownRefs := InterlockedIncrement env.rangeRefs }

/-- A viewport whose top row is -1 and whose bottom row is 0. -/
def negativeTopViewport : SMALL_RECT :=
  { Left := ⟨0, by decide⟩, Top := ⟨-1, by decide⟩,
    Right := ⟨79, by decide⟩, Bottom := ⟨0, by decide⟩ }

/-- A provider on `negativeTopViewport` whose count is 2^32 - 1. -/
def saturatedProvider : ScreenInfoUiaProvider :=
  { _pWindow := none,
    _pScreenInfo := { sampleScreen with GetBufferViewport := negativeTopViewport },
    _cRefs := 4294967295, deleted := 0 }

/-- A viewport with no row: the bottom row is one above the top row. -/
def emptyViewport : SMALL_RECT :=
  { Left := ⟨0, by decide⟩, Top := ⟨5, by decide⟩,
    Right := ⟨79, by decide⟩, Bottom := ⟨4, by decide⟩ }

/-- A viewport upside down: top row 8, bottom row 5. -/
def invertedViewport : SMALL_RECT :=
  { Left := ⟨0, by decide⟩, Top := ⟨8, by decide⟩,
    Right := ⟨79, by decide⟩, Bottom := ⟨5, by decide⟩ }

/-- An environment in which `SafeArrayPutElement` fails with `E_OUTOFMEMORY` at
index `k`, and a new range starts with an own count of zero. -/
def envPutFailsFloating (k : Int) : Env :=
  { createOk := true, putElement := fun i => if i = k then E_OUTOFMEMORY else S_OK,
    allocString := true, rangeRefs := 0 }

/-! ## Arithmetic of the conversions -/

theorem toLONG_of_small (x : Int) (h0 : -2147483648 ≤ x) (h1 : x ≤ 2147483647) :
    toLONG x = x := by
  unfold toLONG
  split <;> omega

theorem toLONG_eq_zero_iff (c : Nat) (h : c < 4294967296) : toLONG (c : Int) = 0 ↔ c = 0 := by
  unfold toLONG
  split <;> omega

theorem toULONG_toLONG (c : Nat) (h : c < 4294967296) : toULONG (toLONG (c : Int)) = c := by
  unfold toULONG toLONG
  split <;> omega

theorem toULONG_of_small (c : Nat) (h : c < 4294967296) : toULONG (c : Int) = c := by
  unfold toULONG
  omega

theorem InterlockedDecrement_lt (c : Nat) : InterlockedDecrement c < 4294967296 := by
  unfold InterlockedDecrement
  omega

theorem InterlockedDecrement_mod (c : Nat) (h : c < 4294967296) :
    InterlockedDecrement c = (c + 4294967295) % 4294967296 := by
  unfold InterlockedDecrement
  split <;> omega

theorem InterlockedDecrement_pos (c : Nat) (h0 : 0 < c) (h : c < 4294967296) :
    InterlockedDecrement c = c - 1 := by
  unfold InterlockedDecrement
  split <;> omega

theorem InterlockedIncrement_small (c : Nat) (h : c < 4294967295) :
    InterlockedIncrement c = c + 1 := by
  unfold InterlockedIncrement
  omega

/-! ## `AddRef` and `Release` -/

theorem AddRef_eq (p : ScreenInfoUiaProvider) :
    p.AddRef = ({ p with _cRefs := InterlockedIncrement p._cRefs }, InterlockedIncrement p._cRefs) :=
  rfl

theorem Release_eq (p : ScreenInfoUiaProvider) :
    p.Release = ({ p with _cRefs := InterlockedDecrement p._cRefs,
                          deleted := p.deleted + (if InterlockedDecrement p._cRefs = 0 then 1 else 0) },
                 InterlockedDecrement p._cRefs) := by
  have h := InterlockedDecrement_lt p._cRefs
  have h2 := toULONG_toLONG _ h
  rw [ScreenInfoUiaProvider.Release]
  split
  · next hz =>
    have h0 := (toLONG_eq_zero_iff _ h).1 hz
    rw [if_pos h0, h2]
  · next hz =>
    have h0 : ¬ InterlockedDecrement p._cRefs = 0 := fun e => hz ((toLONG_eq_zero_iff _ h).2 e)
    rw [if_neg h0, h2]
    rfl
theorem refStep_addRef (p : ScreenInfoUiaProvider) (h : p._cRefs < 4294967295) :
    refStep p RefOp.addRef =
      (⟨p._pWindow, p._pScreenInfo, p._cRefs + 1, p.deleted⟩, p._cRefs + 1) := by
  show p.AddRef = _
  rw [AddRef_eq, InterlockedIncrement_small _ h]

theorem refStep_release (p : ScreenInfoUiaProvider) (h0 : 0 < p._cRefs)
    (h : p._cRefs < 4294967296) :
    refStep p RefOp.release =
      (⟨p._pWindow, p._pScreenInfo, p._cRefs - 1,
        p.deleted + (if p._cRefs - 1 = 0 then 1 else 0)⟩, p._cRefs - 1) := by
  show p.Release = _
  rw [Release_eq, InterlockedDecrement_pos _ h0 h]

theorem traceOps_ne_nil (p : ScreenInfoUiaProvider) (op : RefOp) (rest : List RefOp) :
    traceOps p (op :: rest) ≠ [] := by
  simp [traceOps]

theorem runOps_props (ops : List RefOp) : ∀ (p : ScreenInfoUiaProvider),
    0 < p._cRefs → p._cRefs < 4294967296 → PositiveBefore p ops → NoWrapBefore p ops →
    (∀ r ∈ traceOps p ops,
        (r.op = RefOp.addRef → r.returned = r.before + 1) ∧
        (r.op = RefOp.release → r.returned + 1 = r.before) ∧
        (r.destroyed = true ↔ (r.op = RefOp.release ∧ r.returned = 0))) ∧
    (runOps p ops)._cRefs + ops.count RefOp.release = p._cRefs + ops.count RefOp.addRef ∧
    (runOps p ops).deleted = p.deleted + (if (runOps p ops)._cRefs = 0 then 1 else 0) ∧
    (runOps p ops).deleted
      = p.deleted + ((traceOps p ops).filter (fun r => r.destroyed)).length ∧
    (∀ r ∈ (traceOps p ops).dropLast, r.destroyed = false) := by
  induction ops with
  | nil =>
    intro p h0 _ _ _
    have hne : ¬ p._cRefs = 0 := by omega
    simp [traceOps, runOps, hne]
  | cons op rest ih =>
    intro p h0 h32 hpos hnw
    obtain ⟨_, hposRest⟩ := hpos
    obtain ⟨hroom, hnwRest⟩ := hnw
    cases op with
    | addRef =>
      have hc : p._cRefs < 4294967295 := hroom rfl
      have hstep := refStep_addRef p hc
      rw [hstep] at hposRest hnwRest
      have hrec : stepRecord p RefOp.addRef = ⟨RefOp.addRef, p._cRefs, p._cRefs + 1, false⟩ := by
        simp [stepRecord, hstep]
      have ht : traceOps p (RefOp.addRef :: rest) =
          ⟨RefOp.addRef, p._cRefs, p._cRefs + 1, false⟩ ::
            traceOps ⟨p._pWindow, p._pScreenInfo, p._cRefs + 1, p.deleted⟩ rest := by
        rw [traceOps, hrec, hstep]
      have hr : runOps p (RefOp.addRef :: rest) =
          runOps ⟨p._pWindow, p._pScreenInfo, p._cRefs + 1, p.deleted⟩ rest := by
        rw [runOps, hstep]
      rw [ht, hr]
      obtain ⟨i1, i2, i3, i4, i5⟩ :=
        ih ⟨p._pWindow, p._pScreenInfo, p._cRefs + 1, p.deleted⟩ (by simp) (by simp; omega)
          hposRest hnwRest
      refine ⟨?_, ?_, ?_, ?_, ?_⟩
      · intro r hr
        rcases List.mem_cons.1 hr with h | h
        · subst h; simp
        · exact i1 r h
      · simp at i2 ⊢
        omega
      · simpa using i3
      · simpa using i4
      · intro r hr
        cases hrest : rest with
        | nil => simp [hrest, traceOps] at hr
        | cons o rs =>
          rw [hrest] at hr i5
          rw [List.dropLast_cons_of_ne_nil (traceOps_ne_nil _ _ _)] at hr
          rcases List.mem_cons.1 hr with h | h
          · subst h; rfl
          · exact i5 r h
    | release =>
      have hstep := refStep_release p h0 h32
      rw [hstep] at hposRest hnwRest
      have hrec : stepRecord p RefOp.release =
          ⟨RefOp.release, p._cRefs, p._cRefs - 1, decide (p._cRefs - 1 = 0)⟩ := by
        simp only [stepRecord, hstep]
        by_cases hz : p._cRefs - 1 = 0 <;> simp [hz]
      have ht : traceOps p (RefOp.release :: rest) =
          ⟨RefOp.release, p._cRefs, p._cRefs - 1, decide (p._cRefs - 1 = 0)⟩ ::
            traceOps ⟨p._pWindow, p._pScreenInfo, p._cRefs - 1,
              p.deleted + (if p._cRefs - 1 = 0 then 1 else 0)⟩ rest := by
        rw [traceOps, hrec, hstep]
      have hr : runOps p (RefOp.release :: rest) =
          runOps ⟨p._pWindow, p._pScreenInfo, p._cRefs - 1,
              p.deleted + (if p._cRefs - 1 = 0 then 1 else 0)⟩ rest := by
        rw [runOps, hstep]
      rw [ht, hr]
      by_cases hz : p._cRefs - 1 = 0
      · -- the count reached zero: no further step is allowed
        cases hrest : rest with
        | cons o rs =>
          rw [hrest] at hposRest
          have := hposRest.1
          simp at this
          omega
        | nil =>
          simp [traceOps, runOps, hz]
          omega
      · obtain ⟨i1, i2, i3, i4, i5⟩ :=
          ih ⟨p._pWindow, p._pScreenInfo, p._cRefs - 1,
              p.deleted + (if p._cRefs - 1 = 0 then 1 else 0)⟩
            (by simp; omega) (by simp; omega) hposRest hnwRest
        refine ⟨?_, ?_, ?_, ?_, ?_⟩
        · intro r hr
          rcases List.mem_cons.1 hr with h | h
          · subst h; simp [hz]; omega
          · exact i1 r h
        · simp at i2 ⊢
          omega
        · simpa [hz] using i3
        · simpa [hz] using i4
        · intro r hr
          cases hrest : rest with
          | nil => simp [hrest, traceOps] at hr
          | cons o rs =>
            rw [hrest] at hr i5
            rw [List.dropLast_cons_of_ne_nil (traceOps_ne_nil _ _ _)] at hr
            rcases List.mem_cons.1 hr with h | h
            · subst h; simp [hz]
            · exact i5 r h

theorem addRef_run_to_wrap (n : Nat) : ∀ (p : ScreenInfoUiaProvider),
    0 < p._cRefs → p._cRefs + n = 4294967295 →
    PositiveBefore p (List.replicate (n + 1) RefOp.addRef) ∧
    (runOps p (List.replicate (n + 1) RefOp.addRef))._cRefs = 0 ∧
    (⟨RefOp.addRef, 4294967295, 0, false⟩ : StepRecord)
      ∈ traceOps p (List.replicate (n + 1) RefOp.addRef) := by
  induction n with
  | zero =>
    intro p h0 hc
    have hc2 : p._cRefs = 4294967295 := by omega
    have hw : InterlockedIncrement p._cRefs = 0 := by
      rw [hc2]; decide
    have hstep : refStep p RefOp.addRef = (⟨p._pWindow, p._pScreenInfo, 0, p.deleted⟩, 0) := by
      show p.AddRef = _
      rw [AddRef_eq, hw]
    refine ⟨⟨h0, trivial⟩, ?_, ?_⟩
    · show (runOps (refStep p RefOp.addRef).1 [])._cRefs = 0
      rw [hstep]; rfl
    · show _ ∈ [stepRecord p RefOp.addRef]
      simp [stepRecord, hstep, hc2]
  | succ n ih =>
    intro p h0 hc
    have hlt : p._cRefs < 4294967295 := by omega
    have hstep := refStep_addRef p hlt
    obtain ⟨j1, j2, j3⟩ :=
      ih ⟨p._pWindow, p._pScreenInfo, p._cRefs + 1, p.deleted⟩ (by simp) (by simp; omega)
    rw [List.replicate_succ]
    refine ⟨⟨h0, ?_⟩, ?_, ?_⟩
    · rw [hstep]; exact j1
    · show (runOps (refStep p RefOp.addRef).1 _)._cRefs = 0
      rw [hstep]; exact j2
    · show _ ∈ stepRecord p RefOp.addRef :: traceOps (refStep p RefOp.addRef).1 _
      rw [hstep]
      exact List.mem_cons_of_mem _ j3

/-- C3 (amended). A provider is constructed with count 1. For every finite
sequence of `AddRef` and `Release` steps in which the count is positive before
each step and below 2^32 - 1 before each `AddRef`: `AddRef` returns old + 1 and
`Release` returns old - 1; the final count is 1 + (number of `AddRef`s) -
(number of `Release`s); a step destroys the object exactly when it is a
`Release` whose result is 0; the number of destructions is the number of such
steps, is at most one, is one exactly when the final count is 0, and no step
before the last one destroys the object. -/
theorem C3_refcount_steps (pParent : Option Window) (pScreenInfo : SCREEN_INFORMATION)
    (ops : List RefOp)
    (hpos : PositiveBefore (ScreenInfoUiaProvider.construct pParent pScreenInfo) ops)
    (hroom : NoWrapBefore (ScreenInfoUiaProvider.construct pParent pScreenInfo) ops) :
    (ScreenInfoUiaProvider.construct pParent pScreenInfo)._cRefs = 1 ∧
    (∀ r ∈ traceOps (ScreenInfoUiaProvider.construct pParent pScreenInfo) ops,
        (r.op = RefOp.addRef → r.returned = r.before + 1) ∧
        (r.op = RefOp.release → r.returned + 1 = r.before) ∧
        (r.destroyed = true ↔ (r.op = RefOp.release ∧ r.returned = 0))) ∧
    (((runOps (ScreenInfoUiaProvider.construct pParent pScreenInfo) ops)._cRefs : Int)
      = 1 + (ops.count RefOp.addRef : Int) - (ops.count RefOp.release : Int)) ∧
    (runOps (ScreenInfoUiaProvider.construct pParent pScreenInfo) ops).deleted
      = ((traceOps (ScreenInfoUiaProvider.construct pParent pScreenInfo) ops).filter
          (fun r => r.destroyed)).length ∧
    (runOps (ScreenInfoUiaProvider.construct pParent pScreenInfo) ops).deleted ≤ 1 ∧
    ((runOps (ScreenInfoUiaProvider.construct pParent pScreenInfo) ops).deleted = 1 ↔
      (runOps (ScreenInfoUiaProvider.construct pParent pScreenInfo) ops)._cRefs = 0) ∧
    (∀ r ∈ (traceOps (ScreenInfoUiaProvider.construct pParent pScreenInfo) ops).dropLast,
        r.destroyed = false) := by
  obtain ⟨i1, i2, i3, i4, i5⟩ :=
    runOps_props ops (ScreenInfoUiaProvider.construct pParent pScreenInfo)
      (show 0 < 1 by decide) (show 1 < 4294967296 by decide) hpos hroom
  have hc : (ScreenInfoUiaProvider.construct pParent pScreenInfo)._cRefs = 1 := rfl
  have hd : (ScreenInfoUiaProvider.construct pParent pScreenInfo).deleted = 0 := rfl
  rw [hc] at i2
  rw [hd] at i3 i4
  refine ⟨rfl, i1, by omega, by omega, ?_, ?_, i5⟩
  · rw [i3]; split <;> omega
  · rw [i3]; split <;> simp_all

/-- C3, a run of the amended statement: `AddRef`, `Release`, `Release` on a fresh
provider returns 2, 1, 0, ends at count 0 and destroys the object once. -/
theorem C3_refcount_steps_witness :
    PositiveBefore sampleProvider [RefOp.addRef, RefOp.release, RefOp.release] ∧
    NoWrapBefore sampleProvider [RefOp.addRef, RefOp.release, RefOp.release] ∧
    (traceOps sampleProvider [RefOp.addRef, RefOp.release, RefOp.release]).map
      (fun r => r.returned) = [2, 1, 0] ∧
    (runOps sampleProvider [RefOp.addRef, RefOp.release, RefOp.release]).deleted ≤ 1 ∧
    (runOps sampleProvider [RefOp.addRef, RefOp.release, RefOp.release]).deleted = 1 :=
  ⟨by decide, by decide, by decide,
    (C3_refcount_steps none sampleScreen [RefOp.addRef, RefOp.release, RefOp.release]
      (by decide) (by decide)).2.2.2.2.1,
    by decide⟩

/-- C3 as stated fails: 2^32 - 1 `AddRef` steps on a fresh provider keep the
count positive before every step, yet the last `AddRef` finds 2^32 - 1 and
returns 0, and the final count is 0, not 1 + (2^32 - 1) - 0. -/
theorem C3_counterexample :
    PositiveBefore sampleProvider (List.replicate 4294967295 RefOp.addRef) ∧
    (⟨RefOp.addRef, 4294967295, 0, false⟩ : StepRecord)
      ∈ traceOps sampleProvider (List.replicate 4294967295 RefOp.addRef) ∧
    (runOps sampleProvider (List.replicate 4294967295 RefOp.addRef))._cRefs = 0 ∧
    ¬ (((runOps sampleProvider (List.replicate 4294967295 RefOp.addRef))._cRefs : Int)
        = 1 + ((List.replicate 4294967295 RefOp.addRef).count RefOp.addRef : Int)
            - ((List.replicate 4294967295 RefOp.addRef).count RefOp.release : Int)) := by
  obtain ⟨j1, j2, j3⟩ := addRef_run_to_wrap 4294967294 sampleProvider (by decide) (by decide)
  refine ⟨j1, j3, j2, ?_⟩
  have e : (runOps sampleProvider (List.replicate 4294967295 RefOp.addRef))._cRefs = 0 := j2
  rw [e, List.count_replicate_self]
  have hrel : (List.replicate 4294967295 RefOp.addRef).count RefOp.release = 0 := by
    rw [List.count_replicate]
    simp
  rw [hrel]
  omega

/-- C4 (amended). For every interface identifier, `QueryInterface` does exactly one
of two things. For `IUnknown`, `IRawElementProviderSimple`,
`IRawElementProviderFragment` and `ITextProvider` it returns `S_OK`, writes the
matching non-null interface of this object (`IUnknown` gives the simple-provider
one) and steps the 32-bit count by one, which is an increase by exactly 1
whenever the count is below 2^32 - 1. For every other identifier it writes
null, returns `E_NOINTERFACE` and leaves the provider unchanged. On a freshly
constructed provider the `ITextProvider` query is non-null and the count
becomes 2. -/
theorem C4_QueryInterface (this : ScreenInfoUiaProvider) (riid : IID)
    (pParent : Option Window) (pScreenInfo : SCREEN_INFORMATION) :
    (riid = IID_IUnknown ∨ riid = IID_IRawElementProviderSimple →
      this.QueryInterface riid =
        (S_OK, some Facet.IRawElementProviderSimple,
          ⟨this._pWindow, this._pScreenInfo, (this._cRefs + 1) % 4294967296, this.deleted⟩)) ∧
    (riid = IID_IRawElementProviderFragment →
      this.QueryInterface riid =
        (S_OK, some Facet.IRawElementProviderFragment,
          ⟨this._pWindow, this._pScreenInfo, (this._cRefs + 1) % 4294967296, this.deleted⟩)) ∧
    (riid = IID_ITextProvider →
      this.QueryInterface riid =
        (S_OK, some Facet.ITextProvider,
          ⟨this._pWindow, this._pScreenInfo, (this._cRefs + 1) % 4294967296, this.deleted⟩)) ∧
    (riid ≠ IID_IUnknown → riid ≠ IID_IRawElementProviderSimple →
      riid ≠ IID_IRawElementProviderFragment → riid ≠ IID_ITextProvider →
      this.QueryInterface riid = (E_NOINTERFACE, none, this)) ∧
    ((this.QueryInterface riid).1 = S_OK → this._cRefs < 4294967295 →
      (this.QueryInterface riid).2.2._cRefs = this._cRefs + 1) ∧
    ((this.QueryInterface riid).1 = S_OK ∨
      ((this.QueryInterface riid).1 = E_NOINTERFACE ∧
        (this.QueryInterface riid).2.2._cRefs = this._cRefs)) ∧
    ((ScreenInfoUiaProvider.construct pParent pScreenInfo).QueryInterface IID_ITextProvider).2.1
      = some Facet.ITextProvider ∧
    ((ScreenInfoUiaProvider.construct pParent pScreenInfo).QueryInterface IID_ITextProvider).2.2._cRefs
      = 2 := by
  have hadd : this.AddRef.1 =
      ⟨this._pWindow, this._pScreenInfo, (this._cRefs + 1) % 4294967296, this.deleted⟩ := rfl
  have d12 : IID_IRawElementProviderSimple ≠ IID_IUnknown := by decide
  have d13 : IID_IRawElementProviderFragment ≠ IID_IUnknown := by decide
  have d14 : IID_ITextProvider ≠ IID_IUnknown := by decide
  have d23 : IID_IRawElementProviderFragment ≠ IID_IRawElementProviderSimple := by decide
  have d24 : IID_ITextProvider ≠ IID_IRawElementProviderSimple := by decide
  have d34 : IID_ITextProvider ≠ IID_IRawElementProviderFragment := by decide
  refine ⟨?_, ?_, ?_, ?_, ?_, ?_, rfl, rfl⟩
  · rintro (h | h)
    · subst h
      simp only [ScreenInfoUiaProvider.QueryInterface, if_true, hadd]
    · subst h
      simp only [ScreenInfoUiaProvider.QueryInterface, hadd, if_neg d12, if_true]
  · intro h
    subst h
    simp only [ScreenInfoUiaProvider.QueryInterface, hadd, if_neg d13, if_neg d23, if_true]
  · intro h
    subst h
    simp only [ScreenInfoUiaProvider.QueryInterface, hadd, if_neg d14, if_neg d24, if_neg d34,
      if_true]
  · intro h1 h2 h3 h4
    simp only [ScreenInfoUiaProvider.QueryInterface, if_neg h1, if_neg h2, if_neg h3, if_neg h4]
  · intro hok hlt
    have hmod : (this._cRefs + 1) % 4294967296 = this._cRefs + 1 := by omega
    revert hok
    simp only [ScreenInfoUiaProvider.QueryInterface, hadd]
    split_ifs <;> simp [hmod, E_NOINTERFACE, S_OK]
  · simp only [ScreenInfoUiaProvider.QueryInterface]
    split_ifs <;> simp [S_OK]

/-- C4, the fresh provider of the amended statement: the `ITextProvider` query
succeeds, is non-null, and takes the count from 1 to 2. -/
theorem C4_QueryInterface_witness :
    sampleProvider._cRefs = 1 ∧
    sampleProvider.QueryInterface IID_ITextProvider =
      (S_OK, some Facet.ITextProvider,
        ⟨sampleProvider._pWindow, sampleProvider._pScreenInfo, (sampleProvider._cRefs + 1) % 4294967296,
          sampleProvider.deleted⟩) ∧
    (sampleProvider.QueryInterface IID_ITextProvider).2.2._cRefs = sampleProvider._cRefs + 1 :=
  ⟨rfl,
    (C4_QueryInterface sampleProvider IID_ITextProvider none sampleScreen).2.2.1 rfl,
    (C4_QueryInterface sampleProvider IID_ITextProvider none sampleScreen).2.2.2.2.1
      (by decide) (by decide)⟩

/-- C4 as stated fails: on a provider whose count is 2^32 - 1 the `ITextProvider`
query succeeds and the count becomes 0, not 2^32. -/
theorem C4_counterexample :
    ((⟨none, sampleScreen, 4294967295, 0⟩ : ScreenInfoUiaProvider).QueryInterface
        IID_ITextProvider).1 = S_OK ∧
    ((⟨none, sampleScreen, 4294967295, 0⟩ : ScreenInfoUiaProvider).QueryInterface
        IID_ITextProvider).2.2._cRefs = 0 ∧
    ((⟨none, sampleScreen, 4294967295, 0⟩ : ScreenInfoUiaProvider).QueryInterface
        IID_ITextProvider).2.2._cRefs ≠ 4294967295 + 1 := by
  decide

/-! ## `get_BoundingRectangle` -/

/-- C5 (amended). If the window back-reference is null the call returns
`UIA_E_ELEMENTNOTAVAILABLE` and the rectangle is exactly as before the call.
Otherwise the call succeeds and writes left = rc.left, top = rc.top, and the
`LONG` differences rc.right - rc.left and rc.bottom - rc.top as width and
height; whenever such a difference fits in a `LONG` it is the exact
difference, so that left + width = right (and top + height = bottom). -/
theorem C5_get_BoundingRectangle (this : ScreenInfoUiaProvider) (pRect : UiaRect) :
    (this._pWindow = none →
      this.get_BoundingRectangle pRect = (UIA_E_ELEMENTNOTAVAILABLE, pRect, this)) ∧
    (∀ w : Window, this._pWindow = some w →
      (this.get_BoundingRectangle pRect).1 = S_OK ∧
      (this.get_BoundingRectangle pRect).2.2 = this ∧
      (this.get_BoundingRectangle pRect).2.1.left = w.GetWindowRect.left.1 ∧
      (this.get_BoundingRectangle pRect).2.1.top = w.GetWindowRect.top.1 ∧
      (this.get_BoundingRectangle pRect).2.1.width
        = toLONG (w.GetWindowRect.right.1 - w.GetWindowRect.left.1) ∧
      (this.get_BoundingRectangle pRect).2.1.height
        = toLONG (w.GetWindowRect.bottom.1 - w.GetWindowRect.top.1) ∧
      (-2147483648 ≤ w.GetWindowRect.right.1 - w.GetWindowRect.left.1 →
        w.GetWindowRect.right.1 - w.GetWindowRect.left.1 ≤ 2147483647 →
        (this.get_BoundingRectangle pRect).2.1.width
          = w.GetWindowRect.right.1 - w.GetWindowRect.left.1 ∧
        (this.get_BoundingRectangle pRect).2.1.left + (this.get_BoundingRectangle pRect).2.1.width
          = w.GetWindowRect.right.1) ∧
      (-2147483648 ≤ w.GetWindowRect.bottom.1 - w.GetWindowRect.top.1 →
        w.GetWindowRect.bottom.1 - w.GetWindowRect.top.1 ≤ 2147483647 →
        (this.get_BoundingRectangle pRect).2.1.height
          = w.GetWindowRect.bottom.1 - w.GetWindowRect.top.1 ∧
        (this.get_BoundingRectangle pRect).2.1.top + (this.get_BoundingRectangle pRect).2.1.height
          = w.GetWindowRect.bottom.1)) := by
  constructor
  · intro h
    simp only [ScreenInfoUiaProvider.get_BoundingRectangle, h]
  · intro w h
    have e : this.get_BoundingRectangle pRect =
        (S_OK,
          ⟨w.GetWindowRect.left.1, w.GetWindowRect.top.1,
            toLONG (w.GetWindowRect.right.1 - w.GetWindowRect.left.1),
            toLONG (w.GetWindowRect.bottom.1 - w.GetWindowRect.top.1)⟩, this) := by
      simp only [ScreenInfoUiaProvider.get_BoundingRectangle, h]
    rw [e]
    refine ⟨rfl, rfl, rfl, rfl, rfl, rfl, ?_, ?_⟩
    · intro h0 h1
      show toLONG _ = _ ∧ w.GetWindowRect.left.1 + toLONG _ = _
      rw [toLONG_of_small _ h0 h1]
      exact ⟨rfl, by omega⟩
    · intro h0 h1
      show toLONG _ = _ ∧ w.GetWindowRect.top.1 + toLONG _ = _
      rw [toLONG_of_small _ h0 h1]
      exact ⟨rfl, by omega⟩

/-- C5, both paths of the amended statement: without a window the rectangle is
untouched; with the window at (10, 20, 640, 480) the result is (10, 20, 630, 460). -/
theorem C5_get_BoundingRectangle_witness :
    sampleProvider.get_BoundingRectangle ⟨1, 2, 3, 4⟩
      = (UIA_E_ELEMENTNOTAVAILABLE, ⟨1, 2, 3, 4⟩, sampleProvider) ∧
    ((ScreenInfoUiaProvider.construct (some sampleWindow) sampleScreen).get_BoundingRectangle
        ⟨1, 2, 3, 4⟩).2.1 = ⟨10, 20, 630, 460⟩ ∧
    ((ScreenInfoUiaProvider.construct (some sampleWindow) sampleScreen).get_BoundingRectangle
        ⟨1, 2, 3, 4⟩).2.1.left
      + ((ScreenInfoUiaProvider.construct (some sampleWindow) sampleScreen).get_BoundingRectangle
        ⟨1, 2, 3, 4⟩).2.1.width = 640 :=
  ⟨(C5_get_BoundingRectangle sampleProvider ⟨1, 2, 3, 4⟩).1 rfl,
    by decide,
    (((C5_get_BoundingRectangle (ScreenInfoUiaProvider.construct (some sampleWindow) sampleScreen)
      ⟨1, 2, 3, 4⟩).2 sampleWindow rfl).2.2.2.2.2.2.1 (by decide) (by decide)).2⟩

/-- C5 as stated fails: for the window rectangle with left = -2^31 and
right = 2^31 - 1 the call succeeds with width -1, which is not right - left,
and left + width is not right. -/
theorem C5_counterexample :
    ((ScreenInfoUiaProvider.construct (some wideWindow) sampleScreen).get_BoundingRectangle
        ⟨0, 0, 0, 0⟩).1 = S_OK ∧
    ((ScreenInfoUiaProvider.construct (some wideWindow) sampleScreen).get_BoundingRectangle
        ⟨0, 0, 0, 0⟩).2.1 = ⟨-2147483648, 0, -1, 0⟩ ∧
    ((ScreenInfoUiaProvider.construct (some wideWindow) sampleScreen).get_BoundingRectangle
        ⟨0, 0, 0, 0⟩).2.1.width
      ≠ wideWindow.GetWindowRect.right.1 - wideWindow.GetWindowRect.left.1 ∧
    ((ScreenInfoUiaProvider.construct (some wideWindow) sampleScreen).get_BoundingRectangle
        ⟨0, 0, 0, 0⟩).2.1.left
      + ((ScreenInfoUiaProvider.construct (some wideWindow) sampleScreen).get_BoundingRectangle
        ⟨0, 0, 0, 0⟩).2.1.width
      ≠ wideWindow.GetWindowRect.right.1 := by
  decide

/-! ## `GetPropertyValue` -/

theorem SysAllocString_ok (env : Env) (h : env.allocString = true) (s : String) :
    SysAllocString env s = some s := by
  simp [SysAllocString, h]

theorem SysAllocString_null (env : Env) (h : env.allocString = false) (s : String) :
    SysAllocString env s = none := by
  simp [SysAllocString, h]

/-- C8 (amended). When `SysAllocString` returns null inside `GetPropertyValue`
(property id Name, AutomationId or ProviderDescription), the call still
returns `S_OK`, a success, not `E_OUTOFMEMORY`: the variant is left typed
`VT_EMPTY`, its union holds the null string pointer that was stored, a caller
reads the empty variant, and the provider is unchanged. -/
theorem C8_GetPropertyValue_alloc_failure (this : ScreenInfoUiaProvider) (env : Env)
    (propertyId : PROPERTYID) (pVariant : VARIANT)
    (hnull : env.allocString = false)
    (hid : propertyId = UIA_NamePropertyId ∨ propertyId = UIA_AutomationIdPropertyId ∨
      propertyId = UIA_ProviderDescriptionPropertyId) :
    this.GetPropertyValue env propertyId pVariant =
      (S_OK, ⟨VT_EMPTY, VariantUnion.bstrVal none⟩, this) ∧
    (this.GetPropertyValue env propertyId pVariant).1 ≠ E_OUTOFMEMORY ∧
    FAILED (this.GetPropertyValue env propertyId pVariant).1 = false ∧
    (this.GetPropertyValue env propertyId pVariant).2.1.value = VariantValue.empty := by
  have e : this.GetPropertyValue env propertyId pVariant =
      (S_OK, ⟨VT_EMPTY, VariantUnion.bstrVal none⟩, this) := by
    rcases hid with h | h | h <;> subst h <;>
      simp [ScreenInfoUiaProvider.GetPropertyValue, SysAllocString_null env hnull,
        UIA_ControlTypePropertyId, UIA_NamePropertyId, UIA_AutomationIdPropertyId,
        UIA_ProviderDescriptionPropertyId, UIA_IsControlElementPropertyId,
        UIA_IsContentElementPropertyId, UIA_IsKeyboardFocusablePropertyId,
        UIA_HasKeyboardFocusPropertyId]
  rw [e]
  exact ⟨rfl, (by decide : S_OK ≠ E_OUTOFMEMORY), (by decide : FAILED S_OK = false), rfl⟩

/-- C8, the amended statement on the Name property with a failing allocator and
a variant that held the integer 7: the result is `S_OK` with a `VT_EMPTY`
variant whose union holds the null pointer. -/
theorem C8_GetPropertyValue_alloc_failure_witness :
    envNoString.allocString = false ∧
    sampleProvider.GetPropertyValue envNoString UIA_NamePropertyId staleVariant =
      (S_OK, ⟨VT_EMPTY, VariantUnion.bstrVal none⟩, sampleProvider) :=
  ⟨rfl,
    (C8_GetPropertyValue_alloc_failure sampleProvider envNoString UIA_NamePropertyId staleVariant
      rfl (Or.inl rfl)).1⟩

/-- C8 as stated fails: with a failing `SysAllocString` the Name, AutomationId and
ProviderDescription queries all return `S_OK` (a success code), not
`E_OUTOFMEMORY`. -/
theorem C8_counterexample :
    (sampleProvider.GetPropertyValue envNoString UIA_NamePropertyId staleVariant).1 = S_OK ∧
    (sampleProvider.GetPropertyValue envNoString UIA_AutomationIdPropertyId staleVariant).1
      = S_OK ∧
    (sampleProvider.GetPropertyValue envNoString UIA_ProviderDescriptionPropertyId
      staleVariant).1 = S_OK ∧
    (sampleProvider.GetPropertyValue envNoString UIA_NamePropertyId staleVariant).1
      ≠ E_OUTOFMEMORY ∧
    FAILED (sampleProvider.GetPropertyValue envNoString UIA_NamePropertyId staleVariant).1
      = false := by
  decide

/-- C9. With a succeeding `SysAllocString`, for every property id
`GetPropertyValue` returns `S_OK`, leaves the provider (and so its reference
count) unchanged, and what the caller reads from the variant depends only on
the id: ControlType gives the integer Document, Name and AutomationId the
string "Text Area", IsControlElement and IsContentElement true,
IsKeyboardFocusable and HasKeyboardFocus false, ProviderDescription the string
"Microsoft Console Host: Screen Information Text Area", and every other id the
empty variant, whatever the variant held before. -/
theorem C9_GetPropertyValue_table (this : ScreenInfoUiaProvider) (env : Env)
    (propertyId : PROPERTYID) (pVariant other : VARIANT) (halloc : env.allocString = true) :
    (this.GetPropertyValue env propertyId pVariant).1 = S_OK ∧
    (this.GetPropertyValue env propertyId pVariant).2.2 = this ∧
    (this.GetPropertyValue env propertyId pVariant).2.2._cRefs = this._cRefs ∧
    (this.GetPropertyValue env propertyId other).2.1.value
      = (this.GetPropertyValue env propertyId pVariant).2.1.value ∧
    (this.GetPropertyValue env UIA_ControlTypePropertyId pVariant).2.1.value
      = VariantValue.i4 UIA_DocumentControlTypeId ∧
    (this.GetPropertyValue env UIA_NamePropertyId pVariant).2.1.value
      = VariantValue.bstr (some "Text Area") ∧
    (this.GetPropertyValue env UIA_AutomationIdPropertyId pVariant).2.1.value
      = VariantValue.bstr (some "Text Area") ∧
    (this.GetPropertyValue env UIA_IsControlElementPropertyId pVariant).2.1.value
      = VariantValue.bool VARIANT_TRUE ∧
    (this.GetPropertyValue env UIA_IsContentElementPropertyId pVariant).2.1.value
      = VariantValue.bool VARIANT_TRUE ∧
    (this.GetPropertyValue env UIA_IsKeyboardFocusablePropertyId pVariant).2.1.value
      = VariantValue.bool VARIANT_FALSE ∧
    (this.GetPropertyValue env UIA_HasKeyboardFocusPropertyId pVariant).2.1.value
      = VariantValue.bool VARIANT_FALSE ∧
    (this.GetPropertyValue env UIA_ProviderDescriptionPropertyId pVariant).2.1.value
      = VariantValue.bstr (some "Microsoft Console Host: Screen Information Text Area") ∧
    (propertyId ≠ UIA_ControlTypePropertyId → propertyId ≠ UIA_NamePropertyId →
      propertyId ≠ UIA_AutomationIdPropertyId → propertyId ≠ UIA_IsControlElementPropertyId →
      propertyId ≠ UIA_IsContentElementPropertyId →
      propertyId ≠ UIA_IsKeyboardFocusablePropertyId →
      propertyId ≠ UIA_HasKeyboardFocusPropertyId →
      propertyId ≠ UIA_ProviderDescriptionPropertyId →
      (this.GetPropertyValue env propertyId pVariant).2.1.value = VariantValue.empty) := by
  have hs := SysAllocString_ok env halloc
  have key : ∀ (id : PROPERTYID) (v : VARIANT),
      (this.GetPropertyValue env id v).1 = S_OK ∧
      (this.GetPropertyValue env id v).2.2 = this ∧
      (this.GetPropertyValue env id v).2.1.value =
        (if id = UIA_ControlTypePropertyId then VariantValue.i4 UIA_DocumentControlTypeId
         else if id = UIA_NamePropertyId then VariantValue.bstr (some "Text Area")
         else if id = UIA_AutomationIdPropertyId then VariantValue.bstr (some "Text Area")
         else if id = UIA_IsControlElementPropertyId then VariantValue.bool VARIANT_TRUE
         else if id = UIA_IsContentElementPropertyId then VariantValue.bool VARIANT_TRUE
         else if id = UIA_IsKeyboardFocusablePropertyId then VariantValue.bool VARIANT_FALSE
         else if id = UIA_HasKeyboardFocusPropertyId then VariantValue.bool VARIANT_FALSE
         else if id = UIA_ProviderDescriptionPropertyId then
           VariantValue.bstr (some "Microsoft Console Host: Screen Information Text Area")
         else VariantValue.empty) := by
    intro id v
    simp only [ScreenInfoUiaProvider.GetPropertyValue, hs, ne_eq, reduceCtorEq,
      not_false_eq_true, if_true]
    split_ifs <;> exact ⟨rfl, rfl, rfl⟩
  refine ⟨(key _ _).1, (key _ _).2.1, ?_, ?_, ?_, ?_, ?_, ?_, ?_, ?_, ?_, ?_, ?_⟩
  · rw [(key _ _).2.1]
  · rw [(key _ _).2.2, (key _ _).2.2]
  · rw [(key _ _).2.2, if_pos rfl]
  · rw [(key _ _).2.2, if_neg (by decide), if_pos rfl]
  · rw [(key _ _).2.2, if_neg (by decide), if_neg (by decide), if_pos rfl]
  · rw [(key _ _).2.2, if_neg (by decide), if_neg (by decide), if_neg (by decide), if_pos rfl]
  · rw [(key _ _).2.2, if_neg (by decide), if_neg (by decide), if_neg (by decide),
      if_neg (by decide), if_pos rfl]
  · rw [(key _ _).2.2, if_neg (by decide), if_neg (by decide), if_neg (by decide),
      if_neg (by decide), if_neg (by decide), if_pos rfl]
  · rw [(key _ _).2.2, if_neg (by decide), if_neg (by decide), if_neg (by decide),
      if_neg (by decide), if_neg (by decide), if_neg (by decide), if_pos rfl]
  · rw [(key _ _).2.2, if_neg (by decide), if_neg (by decide), if_neg (by decide),
      if_neg (by decide), if_neg (by decide), if_neg (by decide), if_neg (by decide),
      if_pos rfl]
  · intro h1 h2 h3 h4 h5 h6 h7 h8
    rw [(key _ _).2.2, if_neg h1, if_neg h2, if_neg h3, if_neg h4, if_neg h5, if_neg h6,
      if_neg h7, if_neg h8]

/-- C9 on the Name property and on an unknown property, starting from a variant
that held other data. -/
theorem C9_GetPropertyValue_table_witness :
    envOk.allocString = true ∧
    (sampleProvider.GetPropertyValue envOk UIA_NamePropertyId staleVariant).2.1.value
      = VariantValue.bstr (some "Text Area") ∧
    (sampleProvider.GetPropertyValue envOk 12345 staleVariant).2.1.value = VariantValue.empty :=
  ⟨rfl,
    (C9_GetPropertyValue_table sampleProvider envOk UIA_NamePropertyId staleVariant staleVariant
      rfl).2.2.2.2.2.1,
    (C9_GetPropertyValue_table sampleProvider envOk 12345 staleVariant staleVariant
      rfl).2.2.2.2.2.2.2.2.2.2.2.2 (by decide) (by decide) (by decide) (by decide) (by decide)
      (by decide) (by decide) (by decide)⟩

/-! ## `BuildIntSafeArray` -/

theorem putCalls_length (env : Env) (k n : Nat) : (putCalls env k n).length = n := by
  unfold putCalls
  rw [List.length_map]
  exact List.length_range' _ _ _

theorem SafeArrayPutElement_inside {α : Type} (env : Env) (psa : SAFEARRAY α) (k : Nat) (v : α)
    (hl : psa.lLbound = 0) (hk : k < psa.elems.length) :
    SafeArrayPutElement env psa (k : Int) v =
      (env.putElement k,
        if FAILED (env.putElement k) = true then psa
        else ⟨psa.vt, psa.lLbound, psa.elems.set k v⟩) := by
  have hb : ¬ ((k : Int) < psa.lLbound ∨ psa.lLbound + (psa.elems.length : Int) ≤ (k : Int)) := by
    rw [hl]; omega
  have ht : ((k : Int) - psa.lLbound).toNat = k := by
    rw [hl]; simp
  simp only [SafeArrayPutElement, if_neg hb, ht]
  split <;> rfl

theorem BuildIntSafeArray_loop_succ (env : Env) (data : List Int) (r : Nat) (k : Nat)
    (psa : SAFEARRAY Int) (hl : psa.lLbound = 0) (hk : k < psa.elems.length) :
    BuildIntSafeArray.loop env data (r + 1) (k : Int) psa =
      if FAILED (env.putElement k) = true then
        (none, [ApiCall.SafeArrayPutElement k (env.putElement k), ApiCall.SafeArrayDestroy])
      else
        ((BuildIntSafeArray.loop env data r ((k + 1 : Nat) : Int)
            ⟨psa.vt, psa.lLbound, psa.elems.set k (data.getD k 0)⟩).1,
          ApiCall.SafeArrayPutElement k (env.putElement k) ::
            (BuildIntSafeArray.loop env data r ((k + 1 : Nat) : Int)
              ⟨psa.vt, psa.lLbound, psa.elems.set k (data.getD k 0)⟩).2) := by
  have hput := SafeArrayPutElement_inside env psa k (data.getD k 0) hl hk
  have hcast : ((k : Int) + 1) = ((k + 1 : Nat) : Int) := by push_cast; rfl
  rw [BuildIntSafeArray.loop]
  simp only [Int.toNat_ofNat, hput, hcast]
  by_cases hf : FAILED (env.putElement k) = true
  · simp only [hf, if_true]
  · simp only [hf, if_false]
    rfl

theorem BuildIntSafeArray_loop_spec (env : Env) (data : List Int) (r : Nat) :
    ∀ (k : Nat) (psa : SAFEARRAY Int), psa.lLbound = 0 → k + r = psa.elems.length →
    ((BuildIntSafeArray.loop env data r (k : Int) psa).1 = none ↔
      ∃ j, k ≤ j ∧ j < k + r ∧ FAILED (env.putElement j) = true) ∧
    (∀ out, (BuildIntSafeArray.loop env data r (k : Int) psa).1 = some out →
      out.vt = psa.vt ∧ out.lLbound = 0 ∧ out.elems.length = psa.elems.length ∧
      (∀ j, j < k → out.elems[j]? = psa.elems[j]?) ∧
      (∀ j, k ≤ j → j < k + r → out.elems[j]? = some (data.getD j 0))) ∧
    (∀ f, k ≤ f → f < k + r → FAILED (env.putElement f) = true →
      (∀ j, k ≤ j → j < f → FAILED (env.putElement j) = false) →
      BuildIntSafeArray.loop env data r (k : Int) psa =
        (none, putCalls env k (f + 1 - k) ++ [ApiCall.SafeArrayDestroy])) ∧
    ((∀ j, k ≤ j → j < k + r → FAILED (env.putElement j) = false) →
      (BuildIntSafeArray.loop env data r (k : Int) psa).2 = putCalls env k r) := by
  induction r with
  | zero =>
    intro k psa hl hlen
    refine ⟨?_, ?_, ?_, ?_⟩
    · constructor
      · intro h; simp [BuildIntSafeArray.loop] at h
      · rintro ⟨j, h1, h2, _⟩; omega
    · intro out h
      simp only [BuildIntSafeArray.loop, Option.some.injEq] at h
      subst h
      refine ⟨rfl, hl, rfl, fun _ _ => rfl, ?_⟩
      intro j h1 h2; omega
    · intro f h1 h2; omega
    · intro _; simp [BuildIntSafeArray.loop, putCalls]
  | succ r ih =>
    intro k psa hl hlen
    have hk : k < psa.elems.length := by omega
    have hstep := BuildIntSafeArray_loop_succ env data r k psa hl hk
    have hlen2 : (k + 1) + r = (psa.elems.set k (data.getD k 0)).length := by
      rw [List.length_set]; omega
    obtain ⟨a1, a2, a3, a4⟩ :=
      ih (k + 1) ⟨psa.vt, psa.lLbound, psa.elems.set k (data.getD k 0)⟩ hl hlen2
    rw [hstep]
    by_cases hf : FAILED (env.putElement k) = true
    · rw [if_pos hf]
      refine ⟨?_, ?_, ?_, ?_⟩
      · exact ⟨fun _ => ⟨k, le_refl _, by omega, hf⟩, fun _ => rfl⟩
      · intro out h; simp at h
      · intro f h1 h2 h3 h4
        have hfk : f = k := by
          by_contra hne
          have := h4 k (le_refl _) (by omega)
          rw [hf] at this
          exact Bool.noConfusion this
        subst hfk
        have : f + 1 - f = 1 := by omega
        simp [putCalls, this]
      · intro h
        have := h k (le_refl _) (by omega)
        rw [hf] at this
        exact Bool.noConfusion this
    · rw [if_neg hf]
      have hfalse : FAILED (env.putElement k) = false := eq_false_of_ne_true hf
      refine ⟨?_, ?_, ?_, ?_⟩
      · rw [a1]
        constructor
        · rintro ⟨j, h1, h2, h3⟩
          exact ⟨j, by omega, by omega, h3⟩
        · rintro ⟨j, h1, h2, h3⟩
          have hjk : j ≠ k := by
            intro e; subst e; rw [hfalse] at h3; exact Bool.noConfusion h3
          exact ⟨j, by omega, by omega, h3⟩
      · intro out h
        obtain ⟨b1, b2, b3, b4, b5⟩ := a2 out h
        refine ⟨b1, b2, ?_, ?_, ?_⟩
        · rw [b3, List.length_set]
        · intro j hj
          rw [b4 j (by omega)]
          show (psa.elems.set k (data.getD k 0))[j]? = _
          rw [List.getElem?_set_ne (by omega)]
        · intro j h1 h2
          by_cases hjk : j = k
          · subst hjk
            rw [b4 j (by omega)]
            show (psa.elems.set j (data.getD j 0))[j]? = _
            rw [List.getElem?_set_self hk]
          · exact b5 j (by omega) (by omega)
      · intro f h1 h2 h3 h4
        have hfk : f ≠ k := by
          intro e; subst e; rw [hfalse] at h3; exact Bool.noConfusion h3
        have := a3 f (by omega) (by omega) h3 (fun j hj1 hj2 => h4 j (by omega) hj2)
        rw [this]
        have e : f + 1 - k = (f + 1 - (k + 1)) + 1 := by omega
        rw [e]
        simp [putCalls, List.range'_succ]
      · intro h
        rw [a4 (fun j hj1 hj2 => h j (by omega) (by omega))]
        simp [putCalls, List.range'_succ]
theorem BuildIntSafeArray_spec (env : Env) (data : List Int) (length : LONG)
    (hlen : length.1 = (data.length : Int)) :
    (env.createOk = false →
      BuildIntSafeArray env data length =
        (none, [ApiCall.SafeArrayCreateVector VT_I4 0 data.length])) ∧
    (env.createOk = true →
      ((BuildIntSafeArray env data length).1 = none ↔
        ∃ j, j < data.length ∧ FAILED (env.putElement j) = true) ∧
      (∀ out, (BuildIntSafeArray env data length).1 = some out → out = ⟨VT_I4, 0, data⟩) ∧
      (∀ f, f < data.length → FAILED (env.putElement f) = true →
        (∀ j, j < f → FAILED (env.putElement j) = false) →
        BuildIntSafeArray env data length =
          (none, ApiCall.SafeArrayCreateVector VT_I4 0 data.length ::
            (putCalls env 0 (f + 1) ++ [ApiCall.SafeArrayDestroy]))) ∧
      ((∀ j, j < data.length → FAILED (env.putElement j) = false) →
        (BuildIntSafeArray env data length).2 =
          ApiCall.SafeArrayCreateVector VT_I4 0 data.length :: putCalls env 0 data.length)) := by
  have hu : toULONG length.1 = data.length := by
    have := length.2
    rw [hlen]
    exact toULONG_of_small _ (by omega)
  have ht : length.1.toNat = data.length := by
    rw [hlen]; simp
  constructor
  · intro hc
    simp only [BuildIntSafeArray, SafeArrayCreateVector, hc, hu]
    rfl
  · intro hc
    have hB : BuildIntSafeArray env data length =
        ((BuildIntSafeArray.loop env data data.length ((0 : Nat) : Int)
            ⟨VT_I4, 0, List.replicate data.length 0⟩).1,
          ApiCall.SafeArrayCreateVector VT_I4 0 data.length ::
            (BuildIntSafeArray.loop env data data.length ((0 : Nat) : Int)
              ⟨VT_I4, 0, List.replicate data.length 0⟩).2) := by
      simp only [BuildIntSafeArray, SafeArrayCreateVector, hc, hu, ht, if_true]
      rfl
    obtain ⟨a1, a2, a3, a4⟩ :=
      BuildIntSafeArray_loop_spec env data data.length 0
        ⟨VT_I4, 0, List.replicate data.length 0⟩ rfl (by simp)
    rw [hB]
    refine ⟨?_, ?_, ?_, ?_⟩
    · show (BuildIntSafeArray.loop env data data.length ((0 : Nat) : Int) _).1 = none ↔ _
      rw [a1]
      constructor
      · rintro ⟨j, _, h2, h3⟩; exact ⟨j, by omega, h3⟩
      · rintro ⟨j, h2, h3⟩; exact ⟨j, Nat.zero_le _, by omega, h3⟩
    · intro out h
      obtain ⟨b1, b2, b3, _, b5⟩ := a2 out h
      have hl : out.elems.length = data.length := by
        rw [b3]; simp
      have he : out.elems = data := by
        apply List.ext_getElem? 
        intro j
        by_cases hj : j < data.length
        · rw [b5 j (Nat.zero_le _) (by omega)]
          rw [List.getD_eq_getElem?_getD, List.getElem?_eq_getElem hj]
          rfl
        · rw [List.getElem?_eq_none (by omega), List.getElem?_eq_none (by omega)]
      cases out with
      | mk vt lb elems =>
        simp only at b1 b2 he
        rw [b1, b2, he]
    · intro f h1 h2 h3
      have := a3 f (Nat.zero_le _) (by omega) h2 (fun j _ hj => h3 j hj)
      rw [this]
      rfl
    · intro h
      show _ :: _ = _
      rw [a4 (fun j _ hj => h j (by omega))]
theorem BuildIntSafeArray_outcome (env : Env) (data : List Int) (length : LONG)
    (hlen : length.1 = (data.length : Int)) :
    ((BuildIntSafeArray env data length).1 = none ∨
      (BuildIntSafeArray env data length).1 = some ⟨VT_I4, 0, data⟩) ∧
    (∀ out, (BuildIntSafeArray env data length).1 = some out →
      out.elems.length = data.length ∧ ∀ i, i < data.length → out.elems[i]? = data[i]?) ∧
    ((BuildIntSafeArray env data length).1 = none ↔
      (env.createOk = false ∨ ∃ j, j < data.length ∧ FAILED (env.putElement j) = true)) ∧
    (env.createOk = true → ∀ f, f < data.length → FAILED (env.putElement f) = true →
      (∀ j, j < f → FAILED (env.putElement j) = false) →
      BuildIntSafeArray env data length =
        (none, ApiCall.SafeArrayCreateVector VT_I4 0 data.length ::
          (putCalls env 0 (f + 1) ++ [ApiCall.SafeArrayDestroy]))) := by
  obtain ⟨s1, s2⟩ := BuildIntSafeArray_spec env data length hlen
  have hsome : ∀ out, (BuildIntSafeArray env data length).1 = some out →
      out = ⟨VT_I4, 0, data⟩ := by
    intro out h
    cases hc : env.createOk with
    | false => rw [s1 hc] at h; exact Option.noConfusion h
    | true => exact (s2 hc).2.1 out h
  refine ⟨?_, ?_, ?_, ?_⟩
  · cases h : (BuildIntSafeArray env data length).1 with
    | none => exact Or.inl rfl
    | some out => rw [hsome out h]; exact Or.inr rfl
  · intro out h
    rw [hsome out h]
    exact ⟨rfl, fun _ _ => rfl⟩
  · cases hc : env.createOk with
    | false => rw [s1 hc]; simp
    | true => rw [(s2 hc).1]; simp
  · intro hc
    exact (s2 hc).2.2.1

/-- C6. `BuildIntSafeArray` is all-or-nothing. For every `int` sequence `data`
whose length is the `length` argument, and every outcome of the allocation and
of the element writes: the result is null or a vector holding exactly `data`
(length N, element i equal to data[i]); it is null exactly when the allocation
failed or some write at an index below N failed; and when the first failing
write is at index f, the calls made are the allocation, the writes at
0, ..., f and the destruction of the vector, with no write after the failing one. -/
theorem C6_BuildIntSafeArray_all_or_nothing (env : Env) (data : List Int) (length : LONG)
    (hlen : length.1 = (data.length : Int)) :
    ((BuildIntSafeArray env data length).1 = none ∨
      (BuildIntSafeArray env data length).1 = some ⟨VT_I4, 0, data⟩) ∧
    (∀ out, (BuildIntSafeArray env data length).1 = some out →
      out.elems.length = data.length ∧ ∀ i, i < data.length → out.elems[i]? = data[i]?) ∧
    ((BuildIntSafeArray env data length).1 = none ↔
      (env.createOk = false ∨ ∃ j, j < data.length ∧ FAILED (env.putElement j) = true)) ∧
    (env.createOk = true → ∀ f, f < data.length → FAILED (env.putElement f) = true →
      (∀ j, j < f → FAILED (env.putElement j) = false) →
      BuildIntSafeArray env data length =
        (none, ApiCall.SafeArrayCreateVector VT_I4 0 data.length ::
          (putCalls env 0 (f + 1) ++ [ApiCall.SafeArrayDestroy]))) :=
  BuildIntSafeArray_outcome env data length hlen

/-- C6 on the two-element sequence [3, -1]: with every call succeeding the
result holds [3, -1]; with the write at index 1 failing the result is null and
the calls are the allocation, the writes at 0 and 1, and the destruction. -/
theorem C6_BuildIntSafeArray_all_or_nothing_witness :
    (BuildIntSafeArray envOk [3, -1] ⟨2, by decide⟩).1 = some ⟨VT_I4, 0, [3, -1]⟩ ∧
    BuildIntSafeArray (envPutFails 1) [3, -1] ⟨2, by decide⟩ =
      (none, [ApiCall.SafeArrayCreateVector VT_I4 0 2,
        ApiCall.SafeArrayPutElement 0 S_OK, ApiCall.SafeArrayPutElement 1 E_OUTOFMEMORY,
        ApiCall.SafeArrayDestroy]) :=
  ⟨((C6_BuildIntSafeArray_all_or_nothing envOk [3, -1] ⟨2, by decide⟩ rfl).1).resolve_left
      (by decide),
    (C6_BuildIntSafeArray_all_or_nothing (envPutFails 1) [3, -1] ⟨2, by decide⟩ rfl).2.2.2
      rfl 1 (by decide) (by decide) (by decide)⟩

/-! ## `GetRuntimeId` -/

/-- C7. On every provider, whatever its window, buffer and count:
`GetRuntimeId` either returns `S_OK` with a vector of exactly the 2 elements
[UiaAppendRuntimeId, -1], or returns `E_OUTOFMEMORY` with a null output; the
second happens exactly when the vector cannot be built (the allocation or one
of the two writes fails); the provider is left unchanged and the outcome does
not depend on it. -/
theorem C7_GetRuntimeId (this other : ScreenInfoUiaProvider) (env : Env) :
    (this.GetRuntimeId env = (S_OK, some ⟨VT_I4, 0, [UiaAppendRuntimeId, -1]⟩, this) ∨
      this.GetRuntimeId env = (E_OUTOFMEMORY, none, this)) ∧
    ((this.GetRuntimeId env).1 = S_OK →
      ∃ psa, (this.GetRuntimeId env).2.1 = some psa ∧ psa.elems.length = 2 ∧
        psa.elems = [UiaAppendRuntimeId, -1]) ∧
    (this.GetRuntimeId env = (E_OUTOFMEMORY, none, this) ↔
      (env.createOk = false ∨ FAILED (env.putElement 0) = true ∨
        FAILED (env.putElement 1) = true)) ∧
    (other.GetRuntimeId env).1 = (this.GetRuntimeId env).1 ∧
    (other.GetRuntimeId env).2.1 = (this.GetRuntimeId env).2.1 := by
  obtain ⟨c1, _, c3, _⟩ :=
    BuildIntSafeArray_outcome env [UiaAppendRuntimeId, -1] ⟨2, by decide⟩ rfl
  have hne : (S_OK : HRESULT) ≠ E_OUTOFMEMORY := by decide
  have key : ∀ p : ScreenInfoUiaProvider,
      ((BuildIntSafeArray env [UiaAppendRuntimeId, -1] ⟨2, by decide⟩).1 = none →
        p.GetRuntimeId env = (E_OUTOFMEMORY, none, p)) ∧
      ((BuildIntSafeArray env [UiaAppendRuntimeId, -1] ⟨2, by decide⟩).1
          = some ⟨VT_I4, 0, [UiaAppendRuntimeId, -1]⟩ →
        p.GetRuntimeId env = (S_OK, some ⟨VT_I4, 0, [UiaAppendRuntimeId, -1]⟩, p)) := by
    intro p
    constructor <;> intro h <;> simp only [ScreenInfoUiaProvider.GetRuntimeId, h]
  have hex : (∃ j, j < [UiaAppendRuntimeId, (-1 : Int)].length ∧
      FAILED (env.putElement (j : Nat)) = true) ↔
      (FAILED (env.putElement 0) = true ∨ FAILED (env.putElement 1) = true) := by
    constructor
    · rintro ⟨j, hj, hf⟩
      have hj2 : j < 2 := hj
      interval_cases j
      · exact Or.inl hf
      · exact Or.inr hf
    · rintro (h | h)
      · exact ⟨0, by decide, h⟩
      · exact ⟨1, by decide, h⟩
  rcases c1 with h | h
  · have e1 := (key this).1 h
    have e2 := (key other).1 h
    rw [e1, e2]
    refine ⟨Or.inr rfl, ?_, ?_, rfl, rfl⟩
    · intro hok
      exact absurd hok.symm hne
    · have := c3.1 h
      rw [hex] at this
      exact ⟨fun _ => this, fun _ => rfl⟩
  · have e1 := (key this).2 h
    have e2 := (key other).2 h
    rw [e1, e2]
    refine ⟨Or.inl rfl, ?_, ?_, rfl, rfl⟩
    · intro _
      exact ⟨_, rfl, rfl, rfl⟩
    · constructor
      · intro hrid
        have : (S_OK : HRESULT) = E_OUTOFMEMORY := congrArg Prod.fst hrid
        exact absurd this hne
      · intro hfail
        rw [← hex] at hfail
        have := c3.2 hfail
        rw [h] at this
        exact Option.noConfusion this

/-- C7 on the sample provider: with every call succeeding the vector is [3, -1];
with a failing allocation the result is `E_OUTOFMEMORY` and null. -/
theorem C7_GetRuntimeId_witness :
    sampleProvider.GetRuntimeId envOk = (S_OK, some ⟨VT_I4, 0, [3, -1]⟩, sampleProvider) ∧
    sampleProvider.GetRuntimeId envNoVector = (E_OUTOFMEMORY, none, sampleProvider) :=
  ⟨(C7_GetRuntimeId sampleProvider sampleProvider envOk).1.resolve_right (by decide),
   (C7_GetRuntimeId sampleProvider sampleProvider envNoVector).2.2.1.2 (Or.inl rfl)⟩

/-! ## `GetVisibleRanges` -/

theorem GetVisibleRanges_loop_succ (env : Env) (ob : TEXT_BUFFER_INFO) (fs : COORD)
    (vp : SMALL_RECT) (r i : Nat) (psa : SAFEARRAY (Option UiaTextRange))
    (this : ScreenInfoUiaProvider) (hl : psa.lLbound = 0) (hi : i < psa.elems.length)
    (h31 : i < 2147483648) :
    ScreenInfoUiaProvider.GetVisibleRanges.loop env ob fs vp (r + 1) i psa this =
      if FAILED (env.putElement i) = true then
        ⟨env.putElement i, none, SafeArrayDestroyUnknown psa (this.AddRef).1,
          [ApiCall.SafeArrayPutElement i (env.putElement i), ApiCall.SafeArrayDestroy]⟩
      else
        ⟨(ScreenInfoUiaProvider.GetVisibleRanges.loop env ob fs vp r (i + 1)
            ⟨psa.vt, psa.lLbound, psa.elems.set i (some (storedRange env ob fs vp i))⟩
            (this.AddRef).1).hr,
          (ScreenInfoUiaProvider.GetVisibleRanges.loop env ob fs vp r (i + 1)
            ⟨psa.vt, psa.lLbound, psa.elems.set i (some (storedRange env ob fs vp i))⟩
            (this.AddRef).1).ppRetVal,
          (ScreenInfoUiaProvider.GetVisibleRanges.loop env ob fs vp r (i + 1)
            ⟨psa.vt, psa.lLbound, psa.elems.set i (some (storedRange env ob fs vp i))⟩
            (this.AddRef).1).provider,
          ApiCall.SafeArrayPutElement i (env.putElement i) ::
            (ScreenInfoUiaProvider.GetVisibleRanges.loop env ob fs vp r (i + 1)
              ⟨psa.vt, psa.lLbound, psa.elems.set i (some (storedRange env ob fs vp i))⟩
              (this.AddRef).1).calls⟩ := by
  have hidx : toLONG (i : Int) = (i : Int) := toLONG_of_small _ (by omega) (by omega)
  have hput := SafeArrayPutElement_inside env psa i (some (storedRange env ob fs vp i)) hl hi
  rw [ScreenInfoUiaProvider.GetVisibleRanges.loop]
  simp only [hidx, SafeArrayPutElementUnknown]
  have hst : ∀ x : UiaTextRange, x = storedRange env ob fs vp i →
      SafeArrayPutElement env psa (i : Int) (some x) =
        (env.putElement i,
          if FAILED (env.putElement i) = true then psa
          else ⟨psa.vt, psa.lLbound, psa.elems.set i (some (storedRange env ob fs vp i))⟩) := by
    intro x hx
    rw [hx, hput]
  have h2 := hst ⟨ob, TextUnit.TextUnit_Line, fs,
    (toSizeT vp.Top.1 + i) % 18446744073709551616, i, vp, InterlockedIncrement env.rangeRefs⟩ rfl
  rw [h2]
  by_cases hf : FAILED (env.putElement i) = true
  · simp only [hf, if_true]
  · simp only [hf, if_false]
    rfl
theorem storedRange_kept (env : Env) (h0 : env.rangeRefs % 4294967296 ≠ 0) :
    InterlockedDecrement (InterlockedIncrement env.rangeRefs) ≠ 0 := by
  unfold InterlockedDecrement InterlockedIncrement
  split <;> omega

theorem SafeArrayDestroyUnknown_kept (env : Env) (h0 : env.rangeRefs % 4294967296 ≠ 0)
    (vt : VARTYPE) (lb : Int) (elems : List (Option UiaTextRange)) :
    ∀ (owner : ScreenInfoUiaProvider),
    (∀ e ∈ elems, ∀ x, e = some x → x.ownRefs = InterlockedIncrement env.rangeRefs) →
    SafeArrayDestroyUnknown ⟨vt, lb, elems⟩ owner = owner := by
  induction elems with
  | nil => intro owner _; rfl
  | cons e rest ih =>
    intro owner hinv
    have hrest := ih owner (fun e2 he2 x hx => hinv e2 (List.mem_cons_of_mem _ he2) x hx)
    cases e with
    | none => exact hrest
    | some x =>
      have hx := hinv (some x) (List.mem_cons_self _ _) x rfl
      have hkeep : x.releaseOwner owner = owner := by
        unfold UiaTextRange.releaseOwner
        rw [hx, if_neg (storedRange_kept env h0)]
      show List.foldl _ (x.releaseOwner owner) rest = owner
      rw [hkeep]
      exact hrest

theorem GetVisibleRanges_loop_spec (env : Env) (ob : TEXT_BUFFER_INFO) (fs : COORD)
    (vp : SMALL_RECT) (r : Nat) :
    ∀ (i : Nat) (psa : SAFEARRAY (Option UiaTextRange)) (this : ScreenInfoUiaProvider),
    psa.lLbound = 0 → i + r = psa.elems.length → i + r ≤ 2147483648 →
    ((∀ j, i ≤ j → j < i + r → FAILED (env.putElement j) = false) →
      (ScreenInfoUiaProvider.GetVisibleRanges.loop env ob fs vp r i psa this).hr = S_OK ∧
      (∃ out, (ScreenInfoUiaProvider.GetVisibleRanges.loop env ob fs vp r i psa this).ppRetVal
          = some out ∧
        out.vt = psa.vt ∧ out.lLbound = 0 ∧ out.elems.length = psa.elems.length ∧
        (∀ j, j < i → out.elems[j]? = psa.elems[j]?) ∧
        (∀ j, i ≤ j → j < i + r → out.elems[j]? = some (some (storedRange env ob fs vp j)))) ∧
      (ScreenInfoUiaProvider.GetVisibleRanges.loop env ob fs vp r i psa this).calls
        = putCalls env i r) ∧
    (∀ f, i ≤ f → f < i + r → FAILED (env.putElement f) = true →
      (∀ j, i ≤ j → j < f → FAILED (env.putElement j) = false) →
      (ScreenInfoUiaProvider.GetVisibleRanges.loop env ob fs vp r i psa this).hr
        = env.putElement f ∧
      (ScreenInfoUiaProvider.GetVisibleRanges.loop env ob fs vp r i psa this).ppRetVal = none ∧
      (ScreenInfoUiaProvider.GetVisibleRanges.loop env ob fs vp r i psa this).calls
        = putCalls env i (f + 1 - i) ++ [ApiCall.SafeArrayDestroy] ∧
      (env.rangeRefs % 4294967296 ≠ 0 →
        (∀ e ∈ psa.elems, ∀ x, e = some x → x.ownRefs = InterlockedIncrement env.rangeRefs) →
        (ScreenInfoUiaProvider.GetVisibleRanges.loop env ob fs vp r i psa this).provider
          = ⟨this._pWindow, this._pScreenInfo, (this._cRefs + (f + 1 - i)) % 4294967296,
              this.deleted⟩)) ∧
    ((ScreenInfoUiaProvider.GetVisibleRanges.loop env ob fs vp r i psa this).hr = S_OK →
      (ScreenInfoUiaProvider.GetVisibleRanges.loop env ob fs vp r i psa this).provider._pWindow
        = this._pWindow ∧
      (ScreenInfoUiaProvider.GetVisibleRanges.loop env ob fs vp r i psa this).provider._pScreenInfo
        = this._pScreenInfo ∧
      (ScreenInfoUiaProvider.GetVisibleRanges.loop env ob fs vp r i psa this).provider.deleted
        = this.deleted ∧
      (r = 0 →
        (ScreenInfoUiaProvider.GetVisibleRanges.loop env ob fs vp r i psa this).provider = this) ∧
      (0 < r →
        (ScreenInfoUiaProvider.GetVisibleRanges.loop env ob fs vp r i psa this).provider._cRefs
          = (this._cRefs + r) % 4294967296)) := by
  induction r with
  | zero =>
    intro i psa this hl hlen _
    refine ⟨?_, ?_, ?_⟩
    · intro _
      refine ⟨rfl, ⟨psa, rfl, rfl, hl, rfl, fun _ _ => rfl, ?_⟩, ?_⟩
      · intro j h1 h2; omega
      · simp [ScreenInfoUiaProvider.GetVisibleRanges.loop, putCalls]
    · intro f h1 h2; omega
    · intro _
      exact ⟨rfl, rfl, rfl, fun _ => rfl, fun h => absurd h (Nat.lt_irrefl 0)⟩
  | succ r ih =>
    intro i psa this hl hlen h31
    have hi : i < psa.elems.length := by omega
    have hstep := GetVisibleRanges_loop_succ env ob fs vp r i psa this hl hi (by omega)
    have hlen2 : (i + 1) + r = (psa.elems.set i (some (storedRange env ob fs vp i))).length := by
      rw [List.length_set]; omega
    obtain ⟨s1, s2, s3⟩ :=
      ih (i + 1) ⟨psa.vt, psa.lLbound, psa.elems.set i (some (storedRange env ob fs vp i))⟩
        (this.AddRef).1 hl hlen2 (by omega)
    have hadd : (this.AddRef).1 =
        ⟨this._pWindow, this._pScreenInfo, (this._cRefs + 1) % 4294967296, this.deleted⟩ := rfl
    by_cases hf : FAILED (env.putElement i) = true
    · rw [hstep, if_pos hf]
      refine ⟨?_, ?_, ?_⟩
      · intro h
        have := h i (le_refl _) (by omega)
        rw [hf] at this
        exact Bool.noConfusion this
      · intro f h1 h2 h3 h4
        have hfi : f = i := by
          by_contra hne
          have := h4 i (le_refl _) (by omega)
          rw [hf] at this
          exact Bool.noConfusion this
        subst hfi
        have e1 : f + 1 - f = 1 := by omega
        refine ⟨rfl, rfl, ?_, ?_⟩
        · rw [e1]; simp [putCalls]
        · intro h0 hinv
          show SafeArrayDestroyUnknown psa (this.AddRef).1 = _
          have := SafeArrayDestroyUnknown_kept env h0 psa.vt psa.lLbound psa.elems
            (this.AddRef).1 hinv
          rw [this, hadd, e1]
      · intro hok
        have hok2 : env.putElement i = S_OK := hok
        rw [hok2] at hf
        exact absurd hf (by decide)
    · rw [hstep, if_neg hf]
      have hfalse : FAILED (env.putElement i) = false := eq_false_of_ne_true hf
      refine ⟨?_, ?_, ?_⟩
      · intro h
        obtain ⟨b1, ⟨out, c1, c2, c3, c4, c5, c6⟩, b3⟩ :=
          s1 (fun j hj1 hj2 => h j (by omega) (by omega))
        refine ⟨b1, ⟨out, c1, c2, c3, ?_, ?_, ?_⟩, ?_⟩
        · rw [c4, List.length_set]
        · intro j hj
          rw [c5 j (by omega)]
          show (psa.elems.set i (some (storedRange env ob fs vp i)))[j]? = _
          rw [List.getElem?_set_ne (by omega)]
        · intro j h1 h2
          by_cases hji : j = i
          · subst hji
            rw [c5 j (by omega)]
            show (psa.elems.set j (some (storedRange env ob fs vp j)))[j]? = _
            rw [List.getElem?_set_self hi]
          · exact c6 j (by omega) (by omega)
        · show _ :: _ = _
          rw [b3]
          simp [putCalls, List.range'_succ]
      · intro f h1 h2 h3 h4
        have hfi : f ≠ i := by
          intro e; subst e; rw [hfalse] at h3; exact Bool.noConfusion h3
        obtain ⟨b1, b2, b3, b4⟩ :=
          s2 f (by omega) (by omega) h3 (fun j hj1 hj2 => h4 j (by omega) hj2)
        refine ⟨b1, b2, ?_, ?_⟩
        · show _ :: _ = _
          rw [b3]
          have e : f + 1 - i = (f + 1 - (i + 1)) + 1 := by omega
          rw [e]
          simp [putCalls, List.range'_succ]
        · intro h0 hinv
          have hinv2 : ∀ e ∈ psa.elems.set i (some (storedRange env ob fs vp i)),
              ∀ x, e = some x → x.ownRefs = InterlockedIncrement env.rangeRefs := by
            intro e he x hx
            rcases List.mem_or_eq_of_mem_set he with h | h
            · exact hinv e h x hx
            · rw [h] at hx
              have hsx : storedRange env ob fs vp i = x := Option.some.inj hx
              rw [← hsx]
              rfl
          have hb4 := b4 h0 hinv2
          show (ScreenInfoUiaProvider.GetVisibleRanges.loop env ob fs vp r (i + 1) _ _).provider = _
          rw [hb4, hadd]
          have e : ((this._cRefs + 1) % 4294967296 + (f + 1 - (i + 1))) % 4294967296
              = (this._cRefs + (f + 1 - i)) % 4294967296 := by omega
          show ScreenInfoUiaProvider.mk _ _ _ _ = _
          simp only [e]
      · intro hok
        obtain ⟨d1, d2, d3, d4, d5⟩ := s3 hok
        refine ⟨d1, d2, d3, fun h => absurd h (Nat.succ_ne_zero r), ?_⟩
        intro _
        show (ScreenInfoUiaProvider.GetVisibleRanges.loop env ob fs vp r (i + 1) _ _).provider._cRefs
          = _
        rcases Nat.eq_zero_or_pos r with hr | hr
        · rw [d4 hr, hadd, hr]
        · rw [d5 hr, hadd]
          show ((this._cRefs + 1) % 4294967296 + r) % 4294967296 = _
          omega
theorem toULONG_natCast (n : Nat) : toULONG (n : Int) = n % 4294967296 := by
  unfold toULONG
  omega

theorem rowCount_int (vp : SMALL_RECT) :
    (rowCount vp : Int) = (vp.Bottom.1 - vp.Top.1 + 1) % 18446744073709551616 := by
  unfold rowCount toSizeT
  omega

theorem rowCount_exact (vp : SMALL_RECT) (h : vp.Top.1 - 1 ≤ vp.Bottom.1) :
    (rowCount vp : Int) = vp.Bottom.1 - vp.Top.1 + 1 ∧ rowCount vp ≤ 65536 := by
  have h1 := vp.Top.2
  have h2 := vp.Bottom.2
  have h3 := rowCount_int vp
  omega

theorem rowCount_inverted (vp : SMALL_RECT) (h : vp.Bottom.1 < vp.Top.1 - 1) :
    (rowCount vp : Int) = 18446744073709551616 + (vp.Bottom.1 - vp.Top.1 + 1) ∧
    18446744073709551616 - 65534 ≤ rowCount vp := by
  have h1 := vp.Top.2
  have h2 := vp.Bottom.2
  have h3 := rowCount_int vp
  omega

theorem GetVisibleRanges_null_vector (this : ScreenInfoUiaProvider) (env : Env)
    (hc : env.createOk = false) :
    this.GetVisibleRanges env =
      ⟨E_OUTOFMEMORY, none, this,
        [ApiCall.SafeArrayCreateVector VT_UNKNOWN 0
          (toULONG (rowCount this._pScreenInfo.GetBufferViewport))]⟩ := by
  simp only [ScreenInfoUiaProvider.GetVisibleRanges, SafeArrayCreateVector, hc]
  rfl

theorem GetVisibleRanges_with_vector (this : ScreenInfoUiaProvider) (env : Env)
    (hc : env.createOk = true) :
    this.GetVisibleRanges env =
      ⟨(ScreenInfoUiaProvider.GetVisibleRanges.loop env this._pScreenInfo.TextInfo
          this._pScreenInfo.TextInfo.GetCurrentFont.GetUnscaledSize
          this._pScreenInfo.GetBufferViewport (rowCount this._pScreenInfo.GetBufferViewport) 0
          ⟨VT_UNKNOWN, 0,
            List.replicate (toULONG (rowCount this._pScreenInfo.GetBufferViewport)) none⟩
          this).hr,
        (ScreenInfoUiaProvider.GetVisibleRanges.loop env this._pScreenInfo.TextInfo
          this._pScreenInfo.TextInfo.GetCurrentFont.GetUnscaledSize
          this._pScreenInfo.GetBufferViewport (rowCount this._pScreenInfo.GetBufferViewport) 0
          ⟨VT_UNKNOWN, 0,
            List.replicate (toULONG (rowCount this._pScreenInfo.GetBufferViewport)) none⟩
          this).ppRetVal,
        (ScreenInfoUiaProvider.GetVisibleRanges.loop env this._pScreenInfo.TextInfo
          this._pScreenInfo.TextInfo.GetCurrentFont.GetUnscaledSize
          this._pScreenInfo.GetBufferViewport (rowCount this._pScreenInfo.GetBufferViewport) 0
          ⟨VT_UNKNOWN, 0,
            List.replicate (toULONG (rowCount this._pScreenInfo.GetBufferViewport)) none⟩
          this).provider,
        ApiCall.SafeArrayCreateVector VT_UNKNOWN 0
            (toULONG (rowCount this._pScreenInfo.GetBufferViewport)) ::
          (ScreenInfoUiaProvider.GetVisibleRanges.loop env this._pScreenInfo.TextInfo
            this._pScreenInfo.TextInfo.GetCurrentFont.GetUnscaledSize
            this._pScreenInfo.GetBufferViewport (rowCount this._pScreenInfo.GetBufferViewport) 0
            ⟨VT_UNKNOWN, 0,
              List.replicate (toULONG (rowCount this._pScreenInfo.GetBufferViewport)) none⟩
            this).calls⟩ := by
  simp only [ScreenInfoUiaProvider.GetVisibleRanges, SafeArrayCreateVector, hc, if_true]

/-- The outcome of `GetVisibleRanges` on a viewport with `Top - 1 ≤ Bottom` when
the vector is allocated: either every insertion succeeds, or the first failing
one ends the call. -/
theorem GetVisibleRanges_outcome (this : ScreenInfoUiaProvider) (env : Env)
    (hv : this._pScreenInfo.GetBufferViewport.Top.1 - 1
      ≤ this._pScreenInfo.GetBufferViewport.Bottom.1)
    (hc : env.createOk = true) :
    ((∀ j : Nat, j < rowCount this._pScreenInfo.GetBufferViewport →
        FAILED (env.putElement j) = false) →
      (this.GetVisibleRanges env).hr = S_OK ∧
      (∃ out, (this.GetVisibleRanges env).ppRetVal = some out ∧
        out.vt = VT_UNKNOWN ∧ out.lLbound = 0 ∧
        out.elems.length = rowCount this._pScreenInfo.GetBufferViewport ∧
        (∀ j, j < rowCount this._pScreenInfo.GetBufferViewport →
          out.elems[j]? = some (some (storedRange env this._pScreenInfo.TextInfo
            this._pScreenInfo.TextInfo.GetCurrentFont.GetUnscaledSize
            this._pScreenInfo.GetBufferViewport j)))) ∧
      (this.GetVisibleRanges env).calls =
        ApiCall.SafeArrayCreateVector VT_UNKNOWN 0 (rowCount this._pScreenInfo.GetBufferViewport)
          :: putCalls env 0 (rowCount this._pScreenInfo.GetBufferViewport) ∧
      (this.GetVisibleRanges env).provider._pWindow = this._pWindow ∧
      (this.GetVisibleRanges env).provider._pScreenInfo = this._pScreenInfo ∧
      (this.GetVisibleRanges env).provider.deleted = this.deleted ∧
      (rowCount this._pScreenInfo.GetBufferViewport = 0 →
        (this.GetVisibleRanges env).provider = this) ∧
      (0 < rowCount this._pScreenInfo.GetBufferViewport →
        (this.GetVisibleRanges env).provider._cRefs
          = (this._cRefs + rowCount this._pScreenInfo.GetBufferViewport) % 4294967296)) ∧
    (∀ f, f < rowCount this._pScreenInfo.GetBufferViewport →
      FAILED (env.putElement f) = true →
      (∀ j : Nat, j < f → FAILED (env.putElement j) = false) →
      (this.GetVisibleRanges env).hr = env.putElement f ∧
      (this.GetVisibleRanges env).ppRetVal = none ∧
      (this.GetVisibleRanges env).calls =
        ApiCall.SafeArrayCreateVector VT_UNKNOWN 0 (rowCount this._pScreenInfo.GetBufferViewport)
          :: (putCalls env 0 (f + 1) ++ [ApiCall.SafeArrayDestroy]) ∧
      (env.rangeRefs % 4294967296 ≠ 0 →
        (this.GetVisibleRanges env).provider
          = ⟨this._pWindow, this._pScreenInfo, (this._cRefs + (f + 1)) % 4294967296,
              this.deleted⟩)) := by
  obtain ⟨hn, hle⟩ := rowCount_exact _ hv
  have hu : toULONG (rowCount this._pScreenInfo.GetBufferViewport : Int)
      = rowCount this._pScreenInfo.GetBufferViewport := by
    rw [toULONG_natCast]; omega
  have hG := GetVisibleRanges_with_vector this env hc
  rw [hu] at hG
  obtain ⟨s1, s2, s3⟩ :=
    GetVisibleRanges_loop_spec env this._pScreenInfo.TextInfo
      this._pScreenInfo.TextInfo.GetCurrentFont.GetUnscaledSize
      this._pScreenInfo.GetBufferViewport (rowCount this._pScreenInfo.GetBufferViewport) 0
      ⟨VT_UNKNOWN, 0, List.replicate (rowCount this._pScreenInfo.GetBufferViewport) none⟩
      this rfl (by simp) (by omega)
  rw [hG]
  constructor
  · intro hp
    obtain ⟨b1, ⟨out, c1, c2, c3, c4, _, c6⟩, b3⟩ :=
      s1 (fun j _ hj => hp j (by omega))
    obtain ⟨d1, d2, d3, d4, d5⟩ := s3 b1
    refine ⟨b1, ⟨out, c1, c2, c3, ?_, ?_⟩, ?_, d1, d2, d3, d4, d5⟩
    · rw [c4]; simp
    · intro j hj
      exact c6 j (Nat.zero_le _) (by omega)
    · show _ :: _ = _
      rw [b3]
  · intro f hf h3 h4
    obtain ⟨b1, b2, b3, b4⟩ :=
      s2 f (Nat.zero_le _) (by omega) h3 (fun j _ hj => h4 j hj)
    refine ⟨b1, b2, ?_, ?_⟩
    · show _ :: _ = _
      rw [b3]
      rfl
    · intro h0
      have hb := b4 h0 (by
        intro e he x hx
        rw [List.eq_of_mem_replicate he] at hx
        exact Option.noConfusion hx)
      exact hb
/-- C1 (amended). For every viewport with top <= bottom, when the vector
allocation and every element insertion succeed, `GetVisibleRanges` returns
`S_OK` with a vector of exactly bottom - top + 1 ranges; the range at index i
was built with the buffer, unit = line, the font size and the viewport read at
the start of the call, enumeration index i, and the `size_t` row
(top + i) mod 2^64, which is top + i whenever top + i >= 0; and the provider's
32-bit count after the call is (count before + rowCount) mod 2^32, which is the
count before plus exactly rowCount whenever that sum is below 2^32. -/
theorem C1_GetVisibleRanges_success (this : ScreenInfoUiaProvider) (env : Env)
    (hv : this._pScreenInfo.GetBufferViewport.Top.1 ≤ this._pScreenInfo.GetBufferViewport.Bottom.1)
    (hc : env.createOk = true)
    (hp : ∀ i : Nat, i < rowCount this._pScreenInfo.GetBufferViewport →
      FAILED (env.putElement i) = false) :
    (rowCount this._pScreenInfo.GetBufferViewport : Int)
      = this._pScreenInfo.GetBufferViewport.Bottom.1
        - this._pScreenInfo.GetBufferViewport.Top.1 + 1 ∧
    (this.GetVisibleRanges env).hr = S_OK ∧
    (∃ out, (this.GetVisibleRanges env).ppRetVal = some out ∧
      (out.elems.length : Int)
        = this._pScreenInfo.GetBufferViewport.Bottom.1
          - this._pScreenInfo.GetBufferViewport.Top.1 + 1 ∧
      ∀ i, i < rowCount this._pScreenInfo.GetBufferViewport →
        out.elems[i]? = some (some
          ⟨this._pScreenInfo.TextInfo, TextUnit.TextUnit_Line,
            this._pScreenInfo.TextInfo.GetCurrentFont.GetUnscaledSize,
            (toSizeT this._pScreenInfo.GetBufferViewport.Top.1 + i) % 18446744073709551616,
            i, this._pScreenInfo.GetBufferViewport, InterlockedIncrement env.rangeRefs⟩)) ∧
    (∀ i, i < rowCount this._pScreenInfo.GetBufferViewport →
      (((toSizeT this._pScreenInfo.GetBufferViewport.Top.1 + i) % 18446744073709551616 : Nat) : Int)
        = (this._pScreenInfo.GetBufferViewport.Top.1 + (i : Int)) % 18446744073709551616 ∧
      (0 ≤ this._pScreenInfo.GetBufferViewport.Top.1 + (i : Int) →
        (((toSizeT this._pScreenInfo.GetBufferViewport.Top.1 + i) % 18446744073709551616 : Nat)
          : Int) = this._pScreenInfo.GetBufferViewport.Top.1 + (i : Int))) ∧
    (this.GetVisibleRanges env).provider
      = ⟨this._pWindow, this._pScreenInfo,
          (this._cRefs + rowCount this._pScreenInfo.GetBufferViewport) % 4294967296,
          this.deleted⟩ ∧
    (this._cRefs + rowCount this._pScreenInfo.GetBufferViewport < 4294967296 →
      (this.GetVisibleRanges env).provider._cRefs
        = this._cRefs + rowCount this._pScreenInfo.GetBufferViewport) := by
  obtain ⟨hn, hle⟩ := rowCount_exact this._pScreenInfo.GetBufferViewport (by omega)
  have hpos : 0 < rowCount this._pScreenInfo.GetBufferViewport := by omega
  obtain ⟨b1, ⟨out, c1, _, _, c4, c5⟩, _, d1, d2, d3, _, d5⟩ :=
    (GetVisibleRanges_outcome this env (by omega) hc).1 hp
  have hcount := d5 hpos
  have hprov : (this.GetVisibleRanges env).provider
      = ⟨this._pWindow, this._pScreenInfo,
          (this._cRefs + rowCount this._pScreenInfo.GetBufferViewport) % 4294967296,
          this.deleted⟩ := by
    cases hE : (this.GetVisibleRanges env).provider with
    | mk w s c d =>
      rw [hE] at d1 d2 d3 hcount
      simp only at d1 d2 d3 hcount
      rw [d1, d2, d3, hcount]
  refine ⟨hn, b1, ⟨out, c1, ?_, ?_⟩, ?_, hprov, ?_⟩
  · rw [c4]; exact hn
  · intro i hi
    exact c5 i hi
  · intro i hi
    have h1 := this._pScreenInfo.GetBufferViewport.Top.2
    have h2 := this._pScreenInfo.GetBufferViewport.Bottom.2
    unfold toSizeT
    constructor
    · omega
    · intro h0; omega
  · intro hlt
    rw [hcount]
    exact Nat.mod_eq_of_lt hlt

/-- C1 on the viewport over rows 5 to 8: the call succeeds with 4 ranges whose
rows are 5, 6, 7, 8 at indices 0, 1, 2, 3, and the count goes from 1 to 5. -/
theorem C1_GetVisibleRanges_success_witness :
    sampleProvider._cRefs = 1 ∧
    (sampleProvider.GetVisibleRanges envOk).hr = S_OK ∧
    (sampleProvider.GetVisibleRanges envOk).provider._cRefs = sampleProvider._cRefs + 4 ∧
    (sampleProvider.GetVisibleRanges envOk).ppRetVal.map
        (fun a => a.elems.map (Option.map (fun x => (x.row, x.index, x.textUnit))))
      = some [some (5, 0, TextUnit.TextUnit_Line), some (6, 1, TextUnit.TextUnit_Line),
          some (7, 2, TextUnit.TextUnit_Line), some (8, 3, TextUnit.TextUnit_Line)] :=
  ⟨rfl,
    (C1_GetVisibleRanges_success sampleProvider envOk (by decide) rfl (fun _ _ => rfl)).2.1,
    (C1_GetVisibleRanges_success sampleProvider envOk (by decide) rfl
      (fun _ _ => rfl)).2.2.2.2.2 (by decide),
    by decide⟩

/-- C1 as stated fails: on the viewport with top -1 and bottom 0 and a count of
2^32 - 1, every call succeeds, yet the range at index 0 is built with row
2^64 - 1, not -1, and the count after the call is 1, not 2^32 - 1 + 2. -/
theorem C1_counterexample :
    negativeTopViewport.Top.1 ≤ negativeTopViewport.Bottom.1 ∧
    rowCount negativeTopViewport = 2 ∧
    (saturatedProvider.GetVisibleRanges envOk).hr = S_OK ∧
    (saturatedProvider.GetVisibleRanges envOk).ppRetVal.map
        (fun a => a.elems.map (Option.map (fun x => (x.row, x.index))))
      = some [some (18446744073709551615, 0), some (0, 1)] ∧
    ((18446744073709551615 : Nat) : Int) ≠ negativeTopViewport.Top.1 + 0 ∧
    (saturatedProvider.GetVisibleRanges envOk).provider._cRefs = 1 ∧
    (saturatedProvider.GetVisibleRanges envOk).provider._cRefs
      ≠ saturatedProvider._cRefs + rowCount negativeTopViewport := by
  decide

/-- C2, the code at failing inputs. On the viewport over rows 5 to 8 and a
provider whose count is 1: when the insertion at index 0 fails, the call
returns that error with a null output, and the count after the call is 2; when
the insertion at index 2 fails the count after the call is 4 if a range starts
with its own count at 1, and 2 if it starts at 0. In no case is the count back
at 1. -/
theorem C2_GetVisibleRanges_failure_leaks :
    sampleProvider._cRefs = 1 ∧
    FAILED ((envPutFails 0).putElement 0) = true ∧
    (sampleProvider.GetVisibleRanges (envPutFails 0)).hr = (envPutFails 0).putElement 0 ∧
    (sampleProvider.GetVisibleRanges (envPutFails 0)).ppRetVal = none ∧
    (sampleProvider.GetVisibleRanges (envPutFails 0)).calls
      = [ApiCall.SafeArrayCreateVector VT_UNKNOWN 0 4,
          ApiCall.SafeArrayPutElement 0 E_OUTOFMEMORY, ApiCall.SafeArrayDestroy] ∧
    (sampleProvider.GetVisibleRanges (envPutFails 0)).provider._cRefs = 2 ∧
    (sampleProvider.GetVisibleRanges (envPutFailsFloating 0)).provider._cRefs = 2 ∧
    (sampleProvider.GetVisibleRanges (envPutFails 2)).hr = E_OUTOFMEMORY ∧
    (sampleProvider.GetVisibleRanges (envPutFails 2)).ppRetVal = none ∧
    (sampleProvider.GetVisibleRanges (envPutFails 2)).provider._cRefs = 4 ∧
    (sampleProvider.GetVisibleRanges (envPutFailsFloating 2)).provider._cRefs = 2 := by
  decide

/-- C10 (amended). In `GetVisibleRanges` the row count is the `size_t` conversion of the
`int` value bottom - top + 1 of two `SHORT` bounds: for every viewport it is
(bottom - top + 1) mod 2^64, and the vector length requested is that value
mod 2^32. For bottom >= top - 1 the row count is the exact value, lies in
[0, 65536], converts without loss to the `ULONG` length, every index below it
converts without loss to the `LONG` index, and with the allocation and all
insertions succeeding the loop makes exactly rowCount insertions; for
bottom = top - 1 and the allocation succeeding that is no insertion, an empty
vector and an unchanged provider. For bottom < top - 1 the row count is not zero: it wraps to a value
of at least 2^64 - 65534. -/
theorem C10_rowCount_arithmetic (this : ScreenInfoUiaProvider) (env : Env) :
    ((rowCount this._pScreenInfo.GetBufferViewport : Int)
      = (this._pScreenInfo.GetBufferViewport.Bottom.1
          - this._pScreenInfo.GetBufferViewport.Top.1 + 1) % 18446744073709551616) ∧
    ((this.GetVisibleRanges env).calls.head?
      = some (ApiCall.SafeArrayCreateVector VT_UNKNOWN 0
          (rowCount this._pScreenInfo.GetBufferViewport % 4294967296))) ∧
    (this._pScreenInfo.GetBufferViewport.Top.1 - 1 ≤ this._pScreenInfo.GetBufferViewport.Bottom.1 →
      (rowCount this._pScreenInfo.GetBufferViewport : Int)
        = this._pScreenInfo.GetBufferViewport.Bottom.1
          - this._pScreenInfo.GetBufferViewport.Top.1 + 1 ∧
      rowCount this._pScreenInfo.GetBufferViewport ≤ 65536 ∧
      toULONG (rowCount this._pScreenInfo.GetBufferViewport : Int)
        = rowCount this._pScreenInfo.GetBufferViewport ∧
      (∀ i : Nat, i < rowCount this._pScreenInfo.GetBufferViewport → toLONG (i : Int) = i) ∧
      (env.createOk = true →
        (∀ i : Nat, i < rowCount this._pScreenInfo.GetBufferViewport →
          FAILED (env.putElement i) = false) →
        (this.GetVisibleRanges env).hr = S_OK ∧
        (this.GetVisibleRanges env).calls =
          ApiCall.SafeArrayCreateVector VT_UNKNOWN 0
              (rowCount this._pScreenInfo.GetBufferViewport)
            :: putCalls env 0 (rowCount this._pScreenInfo.GetBufferViewport) ∧
        (putCalls env 0 (rowCount this._pScreenInfo.GetBufferViewport)).length
          = rowCount this._pScreenInfo.GetBufferViewport)) ∧
    (this._pScreenInfo.GetBufferViewport.Bottom.1 = this._pScreenInfo.GetBufferViewport.Top.1 - 1 →
      rowCount this._pScreenInfo.GetBufferViewport = 0 ∧
      (env.createOk = true →
        (this.GetVisibleRanges env).hr = S_OK ∧
        (this.GetVisibleRanges env).ppRetVal = some ⟨VT_UNKNOWN, 0, []⟩ ∧
        (this.GetVisibleRanges env).calls = [ApiCall.SafeArrayCreateVector VT_UNKNOWN 0 0] ∧
        (this.GetVisibleRanges env).provider = this)) ∧
    (this._pScreenInfo.GetBufferViewport.Bottom.1 < this._pScreenInfo.GetBufferViewport.Top.1 - 1 →
      rowCount this._pScreenInfo.GetBufferViewport ≠ 0 ∧
      18446744073709551616 - 65534 ≤ rowCount this._pScreenInfo.GetBufferViewport ∧
      rowCount this._pScreenInfo.GetBufferViewport < 18446744073709551616 ∧
      (rowCount this._pScreenInfo.GetBufferViewport : Int)
        = 18446744073709551616 + (this._pScreenInfo.GetBufferViewport.Bottom.1
          - this._pScreenInfo.GetBufferViewport.Top.1 + 1)) := by
  have hcall : (this.GetVisibleRanges env).calls.head?
      = some (ApiCall.SafeArrayCreateVector VT_UNKNOWN 0
          (rowCount this._pScreenInfo.GetBufferViewport % 4294967296)) := by
    rw [← toULONG_natCast]
    cases hc : env.createOk with
    | false => rw [GetVisibleRanges_null_vector this env hc]; rfl
    | true => rw [GetVisibleRanges_with_vector this env hc]; rfl
  refine ⟨rowCount_int _, hcall, ?_, ?_, ?_⟩
  · intro hv
    obtain ⟨hn, hle⟩ := rowCount_exact _ hv
    refine ⟨hn, hle, ?_, ?_, ?_⟩
    · rw [toULONG_natCast]; omega
    · intro i hi
      exact toLONG_of_small _ (by omega) (by omega)
    · intro hc hp
      obtain ⟨b1, _, b3, _⟩ := (GetVisibleRanges_outcome this env hv hc).1 hp
      exact ⟨b1, b3, putCalls_length _ _ _⟩
  · intro hv
    obtain ⟨hn, _⟩ := rowCount_exact this._pScreenInfo.GetBufferViewport (by omega)
    have h0 : rowCount this._pScreenInfo.GetBufferViewport = 0 := by omega
    refine ⟨h0, ?_⟩
    intro hc
    obtain ⟨b1, ⟨out, c1, c2, c3, c4, _⟩, b3, _, _, _, d4, _⟩ :=
      (GetVisibleRanges_outcome this env (by omega) hc).1 (fun i hi => by omega)
    refine ⟨b1, ?_, ?_, d4 h0⟩
    · rw [c1]
      cases out with
      | mk vt lb elems =>
        simp only at c2 c3 c4
        rw [h0] at c4
        rw [c2, c3, List.length_eq_zero.1 c4]
    · rw [b3, h0]
      rfl
  · intro hv
    obtain ⟨h1, h2⟩ := rowCount_inverted _ hv
    have hT := this._pScreenInfo.GetBufferViewport.Top.2
    have hB := this._pScreenInfo.GetBufferViewport.Bottom.2
    exact ⟨by omega, h2, by omega, h1⟩

/-- C10 on three viewports: rows 5 to 8 give 4 insertions; top 5 and bottom 4
give an empty vector and an unchanged provider; top 8 and bottom 5 give the
row count 2^64 - 2 and a requested length of 2^32 - 2. -/
theorem C10_rowCount_arithmetic_witness :
    (sampleProvider.GetVisibleRanges envOk).calls
      = [ApiCall.SafeArrayCreateVector VT_UNKNOWN 0 4, ApiCall.SafeArrayPutElement 0 S_OK,
          ApiCall.SafeArrayPutElement 1 S_OK, ApiCall.SafeArrayPutElement 2 S_OK,
          ApiCall.SafeArrayPutElement 3 S_OK] ∧
    ((⟨none, ⟨emptyViewport, sampleScreen.TextInfo⟩, 1, 0⟩ : ScreenInfoUiaProvider).GetVisibleRanges
        envOk).ppRetVal = some ⟨VT_UNKNOWN, 0, []⟩ ∧
    ((⟨none, ⟨emptyViewport, sampleScreen.TextInfo⟩, 1, 0⟩ : ScreenInfoUiaProvider).GetVisibleRanges
        envOk).provider = ⟨none, ⟨emptyViewport, sampleScreen.TextInfo⟩, 1, 0⟩ ∧
    rowCount invertedViewport = 18446744073709551614 ∧
    ((⟨none, ⟨invertedViewport, sampleScreen.TextInfo⟩, 1, 0⟩ : ScreenInfoUiaProvider).GetVisibleRanges
        envNoVector).calls.head? = some (ApiCall.SafeArrayCreateVector VT_UNKNOWN 0 4294967294) :=
  ⟨((C10_rowCount_arithmetic sampleProvider envOk).2.2.1 (by decide)).2.2.2.2 rfl
      (fun _ _ => rfl) |>.2.1,
    ((C10_rowCount_arithmetic ⟨none, ⟨emptyViewport, sampleScreen.TextInfo⟩, 1, 0⟩ envOk).2.2.2.1
      (by decide)).2 rfl |>.2.1,
    ((C10_rowCount_arithmetic ⟨none, ⟨emptyViewport, sampleScreen.TextInfo⟩, 1, 0⟩ envOk).2.2.2.1
      (by decide)).2 rfl |>.2.2.2,
    by decide,
    (C10_rowCount_arithmetic ⟨none, ⟨invertedViewport, sampleScreen.TextInfo⟩, 1, 0⟩
      envNoVector).2.1⟩

/-- C10 as stated fails. On the viewport over rows 5 to 8 (bottom >= top - 1,
row count 4) with the insertion at index 0 failing, the loop runs one
iteration, not 4. On the viewport with top 5 and bottom 4 (bottom = top - 1)
with a failing allocation, the output is null, not an empty vector. -/
theorem C10_counterexample :
    sampleViewport.Top.1 - 1 ≤ sampleViewport.Bottom.1 ∧
    rowCount sampleViewport = 4 ∧
    (sampleProvider.GetVisibleRanges (envPutFails 0)).calls
      = [ApiCall.SafeArrayCreateVector VT_UNKNOWN 0 4,
          ApiCall.SafeArrayPutElement 0 E_OUTOFMEMORY, ApiCall.SafeArrayDestroy] ∧
    putCount (sampleProvider.GetVisibleRanges (envPutFails 0)).calls = 1 ∧
    putCount (sampleProvider.GetVisibleRanges (envPutFails 0)).calls ≠ rowCount sampleViewport ∧
    emptyViewport.Bottom.1 = emptyViewport.Top.1 - 1 ∧
    ((⟨none, ⟨emptyViewport, sampleScreen.TextInfo⟩, 1, 0⟩ : ScreenInfoUiaProvider).GetVisibleRanges
        envNoVector).hr = E_OUTOFMEMORY ∧
    ((⟨none, ⟨emptyViewport, sampleScreen.TextInfo⟩, 1, 0⟩ : ScreenInfoUiaProvider).GetVisibleRanges
        envNoVector).ppRetVal = none ∧
    ((⟨none, ⟨emptyViewport, sampleScreen.TextInfo⟩, 1, 0⟩ : ScreenInfoUiaProvider).GetVisibleRanges
        envNoVector).ppRetVal ≠ some ⟨VT_UNKNOWN, 0, []⟩ := by
  decide

end ConHost
